import Mathlib

/-!
Verification of the grid-order reconciliation engine of
`improved_gridbot.py` (class `ImprovedGridBot`).

The Python source is shallowly embedded below.  Python floats are
modelled as exact rationals (`ℚ`), Python `round(x, n)` as decimal
round-half-even, Python `int(x)` as truncation toward zero, and Python
dictionaries as association lists or as functions out of `String`.
The exchange (Kraken REST API) is modelled as a static environment
`Env` supplying the answers the bot would receive during one polling
tick: the open orders, the custodial totals, the ticker prices, the
BTC/USD conversion price, and a deterministic acceptance predicate for
`AddOrder` requests.  Logging, SQLite persistence, sleeps and the
signed HTTP transport carry no reconciliation state and are not
modelled.
-/

namespace GridBot

/-! ## Basic helpers -/

/-- Membership of `needle` as a prefix of `hay`, on character lists. -/
def listIsPrefix : List Char → List Char → Bool
  | [], _ => true
  | _ :: _, [] => false
  | a :: as, b :: bs => a = b && listIsPrefix as bs

/-- Substring containment on character lists (Python `needle in hay`). -/
def listContains : List Char → List Char → Bool
  | [], needle => needle.isEmpty
  | c :: t, needle => listIsPrefix needle (c :: t) || listContains t needle

/-- Python `pat in s` for strings. -/
def strContains (s pat : String) : Bool :=
  listContains s.data pat.data

/-- Python `s.upper()` (the strings this bot handles are ASCII
currency-pair codes, for which mapping `Char.toUpper` over the
characters is exact). -/
def pyUpper (s : String) : String :=
  ⟨s.data.map Char.toUpper⟩

/-- Python `s.strip()`: remove leading and trailing whitespace. -/
def pyStrip (s : String) : String :=
  ⟨((s.data.dropWhile Char.isWhitespace).reverse.dropWhile Char.isWhitespace).reverse⟩

/-- Python dict `.get(k, d)` over an association list. -/
def lookupD : List (String × ℚ) → String → ℚ → ℚ
  | [], _, d => d
  | (k, v) :: t, a, d => if k = a then v else lookupD t a d

/-- Keyed update of a function out of `String` (dict assignment). -/
def setKey {α : Type} (f : String → α) (k : String) (v : α) : String → α :=
  fun x => if x = k then v else f x

/-- Round-half-even to an integer (the tie rule of Python `round`). -/
def roundHalfEven (x : ℚ) : ℤ :=
  let f := Int.floor x
  let r := x - f
  if r < 1/2 then f
  else if 1/2 < r then f + 1
  else if f % 2 = 0 then f else f + 1

/-- Python `round(x, n)`: decimal rounding to `n` places. -/
def pyRound (x : ℚ) (n : ℕ) : ℚ :=
  (roundHalfEven (x * 10 ^ n) : ℚ) / 10 ^ n

/-- Python `int(x)`: truncation toward zero. -/
def ratTrunc (q : ℚ) : ℤ :=
  if q < 0 then -Int.floor (-q) else Int.floor q

/-! ## Data model -/

/-- One open order as reported by `OpenOrders` (`vol` at top level,
`type`/`price`/`pair` inside `descr`). -/
structure OrderInfo where
  otype : String
  vol : ℚ
  price : ℚ
  pairStr : String
deriving DecidableEq

/-- Per-pair configuration (`TRADING_PAIRS` entries together with the
defaults supplied at each `config.get` call site). -/
structure PairConfig where
  grid_interval : ℚ
  precision : ℕ
  volume_precision : ℕ
  min_order_size : ℚ
  base_asset : String
  quote_asset : String
  kraken_pair : String
  max_orders_per_side : ℕ
  min_orders_per_side : ℕ
  dynamic_grid_reposition : Bool
  grid_reposition_threshold : ℚ
  grid_reposition_cooldown : ℚ
deriving DecidableEq

/-- `TRADING_PAIRS["XRP/BTC"]` (dynamic repositioning keys are absent,
so `config.get` yields `False`, `5.0`, `300`). -/
def xrpBtcConfig : PairConfig :=
  { grid_interval := 2.5
    precision := 8
    volume_precision := 2
    min_order_size := 10
    base_asset := "XXBT"
    quote_asset := "XXRP"
    kraken_pair := "XXRPXXBT"
    max_orders_per_side := 20
    min_orders_per_side := 4
    dynamic_grid_reposition := false
    grid_reposition_threshold := 5
    grid_reposition_cooldown := 300 }

/-- `TRADING_PAIRS["ETH/USD"]`. -/
def ethUsdConfig : PairConfig :=
  { grid_interval := 1.5
    precision := 2
    volume_precision := 6
    min_order_size := 0.005
    base_asset := "ZUSD"
    quote_asset := "XETH"
    kraken_pair := "XETHZUSD"
    max_orders_per_side := 18
    min_orders_per_side := 3
    dynamic_grid_reposition := true
    grid_reposition_threshold := 5
    grid_reposition_cooldown := 300 }

/-- `self.enabled_pairs`: both configured pairs have `enabled: True`;
Python dicts preserve insertion order (XRP/BTC first). -/
def enabledPairs : List (String × PairConfig) :=
  [("XRP/BTC", xrpBtcConfig), ("ETH/USD", ethUsdConfig)]

/-- An `AddOrder` request as submitted to the exchange (price and
volume already rounded, as the bot sends `str(rounded_...)`). -/
structure AddOrderRequest where
  krakenPair : String
  side : String
  price : ℚ
  volume : ℚ
deriving DecidableEq

/-- The static world one reconciliation tick runs against: responses
of the exchange during the tick.  `openOrders2` is what a re-fetch of
open orders returns after replacement orders were placed. -/
structure Env where
  openOrders : List (String × OrderInfo)
  openOrders2 : List (String × OrderInfo)
  totals : List (String × ℚ)
  prices : String → Option ℚ
  btcUsd : Option ℚ
  accepts : AddOrderRequest → Bool
  now : ℚ

/-- The durable per-pair state of the bot: `expected_order_counts`,
`grid_center_prices` and `last_reposition_time` entries. -/
structure PairSt where
  exp : Option (ℕ × ℕ)
  center : Option ℚ
  lastRepo : Option ℚ
deriving DecidableEq

/-- The mutable in-memory state of `ImprovedGridBot` that the
reconciliation logic reads and writes. -/
structure BotState where
  pairs : String → PairSt
  balances : List (String × ℚ)
  availableBalances : List (String × ℚ)

/-- Write one pair's durable record. -/
def writePair (st : BotState) (p : String) (l : PairSt) : BotState :=
  { st with pairs := setKey st.pairs p l }

/-- Write one pair's `expected_order_counts` entry. -/
def writeExp (st : BotState) (p : String) (e : ℕ × ℕ) : BotState :=
  writePair st p { st.pairs p with exp := some e }

/-! ## Pair resolution (`match_order_to_pair`) -/

/-- The static alias table `pair_mappings` inside
`match_order_to_pair` (as `dict.get(key, key)`). -/
def aliasOf (u : String) : String :=
  if u = "ETHUSD" then "XETHZUSD"
  else if u = "ETH/USD" then "XETHZUSD"
  else if u = "XETHUSD" then "XETHZUSD"
  else if u = "ETHZUSD" then "XETHZUSD"
  else if u = "XRPBTC" then "XXRPXXBT"
  else if u = "XRP/BTC" then "XXRPXXBT"
  else if u = "XRPXXBT" then "XXRPXXBT"
  else if u = "XXRPXBT" then "XXRPXXBT"
  else if u = "XRPXBT" then "XXRPXXBT"
  else u

/-- Strip the Kraken currency-code decoration characters X and Z
(`''.join(c for c in s if c not in 'XZ')`). -/
def stripXZ (s : String) : String :=
  ⟨s.data.filter (fun c => c ≠ 'X' && c ≠ 'Z')⟩

/-- First loop of `match_order_to_pair`: for each enabled pair try the
alias-normalised string, then the raw upper-cased string, against the
configured `kraken_pair` (case-insensitively). -/
def matchLoop1 (u n : String) : List (String × PairConfig) → Option String
  | [] => none
  | (p, cfg) :: t =>
      if pyUpper cfg.kraken_pair = pyUpper n then some p
      else if pyUpper cfg.kraken_pair = u then some p
      else matchLoop1 u n t

/-- Second loop of `match_order_to_pair`: compare after stripping X/Z
decoration characters from both sides. -/
def matchLoop2 (u : String) : List (String × PairConfig) → Option String
  | [] => none
  | (p, cfg) :: t =>
      if stripXZ (pyUpper cfg.kraken_pair) = stripXZ u then some p
      else matchLoop2 u t

/-- `ImprovedGridBot.match_order_to_pair`. -/
def matchOrderToPair (s : String) : Option String :=
  if s = "" then none
  else
    match matchLoop1 (pyStrip (pyUpper s)) (aliasOf (pyStrip (pyUpper s)))
        enabledPairs with
    | some p => some p
    | none => matchLoop2 (pyStrip (pyUpper s)) enabledPairs

/-! ## Lock accounting (`get_account_balance`) -/

/-- The locked amount one open order contributes to one asset, per the
branch structure of `get_account_balance`: an ETH/USD buy locks
`vol × price` of ZUSD, an ETH/USD sell locks `vol` of XETH, an XRP/BTC
buy locks `vol × price` of XXBT, an XRP/BTC sell locks `vol` of XXRP;
the pair is recognised by substring tests on the upper-cased pair
string, and unrecognised orders contribute nothing. -/
def lockContribution (o : OrderInfo) (a : String) : ℚ :=
  let u := pyUpper o.pairStr
  if o.otype = "buy" then
    if strContains u "ETH" && strContains u "USD" then
      if a = "ZUSD" then o.vol * o.price else 0
    else if strContains u "XRP" && (strContains u "BTC" || strContains u "XBT") then
      if a = "XXBT" then o.vol * o.price else 0
    else 0
  else if o.otype = "sell" then
    if strContains u "ETH" && strContains u "USD" then
      if a = "XETH" then o.vol else 0
    else if strContains u "XRP" && (strContains u "BTC" || strContains u "XBT") then
      if a = "XXRP" then o.vol else 0
    else 0
  else 0

/-- One step of the `locked_funds` accumulation: the dict update
`locked_funds[asset] = locked_funds.get(asset, 0) + x` of the branch
that matches the order (if any). -/
def lockedFundsStep (m : String → ℚ) (o : OrderInfo) : String → ℚ :=
  fun a => m a + lockContribution o a

/-- The `locked_funds` dict after scanning all open orders. -/
def lockedFunds (os : List OrderInfo) : String → ℚ :=
  os.foldl lockedFundsStep (fun _ => 0)

/-- The `available_balances` dict computed by `get_account_balance`:
for every asset in the custodial totals, total minus locked. -/
def freshAvailList (env : Env) : List (String × ℚ) :=
  env.totals.map (fun kv => (kv.1, kv.2 - lockedFunds (env.openOrders.map Prod.snd) kv.1))

/-- `get_account_balance`: store the totals and recompute the
available balances from the currently open orders. -/
def refreshBalances (env : Env) (st : BotState) : BotState :=
  { st with balances := env.totals, availableBalances := freshAvailList env }

/-- The balance-reading pattern
`self.available_balances.get(a, self.balances.get(a, 0))` used when
`self.available_balances` is non-empty (truthy), falling back to the
custodial totals otherwise. -/
def readBalance (st : BotState) (a : String) : ℚ :=
  if st.availableBalances ≠ [] then
    lookupD st.availableBalances a (lookupD st.balances a 0)
  else lookupD st.balances a 0

/-! ## Order sizing and placement -/

/-- The BTC/USD conversion used by `calculate_order_volume`,
`create_grid_orders` and the monitor top-ups:
`self.btc_usd_price if self.btc_usd_price else 90000.0`
(a Python truthiness test: `None` and `0.0` fall back). -/
def effBtcUsdCalc (env : Env) : ℚ :=
  match env.btcUsd with
  | some p => if p = 0 then 90000 else p
  | none => 90000

/-- The BTC/USD conversion used by `place_limit_order`: an explicit
`is None` test, falling back to 18 × the ETH/USD price when that is
tracked, else to the hardcoded 90000. -/
def effBtcUsdPlace (env : Env) : ℚ :=
  match env.btcUsd with
  | some p => p
  | none =>
      match env.prices "ETH/USD" with
      | some e => e * 18
      | none => 90000

/-- The comparison-unit value `place_limit_order` checks against
`config.min_order_size` (arguments are the already-rounded volume and
price): raw volume for ETH/USD, a USD-converted value for XRP/BTC, and
`volume × price` for any other pair. -/
def comparisonUnitValue (env : Env) (p : String) (rv rp : ℚ) : ℚ :=
  if p = "ETH/USD" then rv
  else if p = "XRP/BTC" then rv * rp * effBtcUsdPlace env
  else rv * rp

/-- Outcome of one `place_limit_order` call: whether a transaction id
was returned (truthy order id), and the `AddOrder` requests actually
issued to the exchange (none when validation rejects the order). -/
structure PlaceResult where
  ok : Bool
  reqs : List AddOrderRequest
deriving DecidableEq

/-- `ImprovedGridBot.place_limit_order`: round price and volume to the
configured precisions, enforce the minimum-size check of the matching
pair branch, and only then submit the `AddOrder` request. -/
def placeLimitOrder (env : Env) (p side : String) (volume price : ℚ)
    (cfg : PairConfig) : PlaceResult :=
  let rp := pyRound price cfg.precision
  let rv := pyRound volume cfg.volume_precision
  if comparisonUnitValue env p rv rp < cfg.min_order_size then
    { ok := false, reqs := [] }
  else
    let req : AddOrderRequest :=
      { krakenPair := cfg.kraken_pair, side := side, price := rp, volume := rv }
    { ok := env.accepts req, reqs := [req] }

/-- `ImprovedGridBot.calculate_order_volume`.  A `none` result models
Python returning `None` (insufficient balance, share below minimum, or
the `ZeroDivisionError` caught by the surrounding `try`). -/
def calculateOrderVolume (env : Env) (st : BotState) (p side : String)
    (cfg : PairConfig) (cp : ℚ) (count : ℕ) : Option ℚ :=
  let base := readBalance st cfg.base_asset
  let quote := readBalance st cfg.quote_asset
  if count = 0 then none
  else if p = "ETH/USD" then
    let minEth := cfg.min_order_size
    let minUsd := cp * minEth
    if side = "buy" then
      let availUsd := base * (95/100)
      if availUsd < minUsd then none
      else if cp = 0 then none
      else
        let usdPerOrder := availUsd / count
        let volume := usdPerOrder / cp
        if volume < minEth then none else some volume
    else
      let availEth := quote * (95/100)
      if availEth < minEth then none
      else
        let volume := availEth / count
        if volume < minEth then none else some volume
  else
    let minUsd := cfg.min_order_size
    let bu := effBtcUsdCalc env
    let xrpUsd := cp * bu
    let minXrp := if 0 < xrpUsd then minUsd / xrpUsd else 5
    let minBtc := if 0 < bu then minUsd / bu else 0.0001
    if side = "buy" then
      let availBtc := base * (95/100)
      if availBtc < minBtc then none
      else if cp = 0 then none
      else
        let btcPerOrder := availBtc / count
        let volume := btcPerOrder / cp
        if volume < minXrp then none else some volume
    else
      let availXrp := quote * (95/100)
      if availXrp < minXrp then none
      else
        let volume := availXrp / count
        if volume < minXrp then none else some volume

/-! ## Grid creation (`create_grid_orders`) -/

/-- The affordable per-side order counts computed at the top of
`create_grid_orders` (Python ints, so possibly negative when a stale
available balance is negative). -/
def gridSideCounts (env : Env) (st : BotState) (p : String)
    (cfg : PairConfig) (cp : ℚ) : ℤ × ℤ :=
  if p = "ETH/USD" then
    let baseBal := readBalance st cfg.base_asset
    let quoteBal := readBalance st cfg.quote_asset
    let usdAvailable := baseBal * (95/100)
    let ethAvailable := quoteBal * (95/100)
    let minOrderEth := cfg.min_order_size
    let minOrderValueUsd := cp * minOrderEth
    let maxAffordableBuys :=
      if 0 < minOrderValueUsd then ratTrunc (usdAvailable / minOrderValueUsd) else 0
    let buyCount := min (cfg.max_orders_per_side : ℤ) maxAffordableBuys
    let maxAffordableSells :=
      if 0 < minOrderEth then ratTrunc (ethAvailable / minOrderEth) else 0
    let sellCount := min (cfg.max_orders_per_side : ℤ) maxAffordableSells
    (buyCount, sellCount)
  else
    let baseBal := readBalance st cfg.base_asset
    let quoteBal := readBalance st cfg.quote_asset
    let minOrderUsd := cfg.min_order_size
    let bu := effBtcUsdCalc env
    let xrpUsd := cp * bu
    let minXrpPerOrder := if 0 < xrpUsd then minOrderUsd / xrpUsd else 10
    let minBtcPerOrder := if 0 < bu then minOrderUsd / bu else 0.0001
    let btcAvailable := baseBal * (95/100)
    let maxAffordableBuys :=
      if 0 < minBtcPerOrder then ratTrunc (btcAvailable / minBtcPerOrder) else 0
    let buyCount := min (cfg.max_orders_per_side : ℤ) maxAffordableBuys
    let xrpAvailable := quoteBal * (95/100)
    let maxAffordableSells :=
      if 0 < minXrpPerOrder then ratTrunc (xrpAvailable / minXrpPerOrder) else 0
    let sellCount := min (cfg.max_orders_per_side : ℤ) maxAffordableSells
    (buyCount, sellCount)

/-- A placement loop shared by `create_grid_orders` and the monitor
top-up blocks: place `n` orders of one side at grid levels
`base + 1 .. base + n` below (buys) or above (sells) the current
price, all with the same volume; returns the issued requests and the
number of orders confirmed placed. -/
def placeRun (env : Env) (p side : String) (v cp : ℚ) (cfg : PairConfig)
    (base n : ℕ) : List AddOrderRequest × ℕ :=
  (List.range n).foldl
    (fun acc (i : ℕ) =>
      let off := cfg.grid_interval / 100 * (base + i + 1)
      let price := if side = "buy" then cp * (1 - off) else cp * (1 + off)
      let r := placeLimitOrder env p side v price cfg
      (acc.1 ++ r.reqs, acc.2 + if r.ok then 1 else 0))
    ([], 0)

/-- Result of `create_grid_orders`. -/
structure CreateResult where
  state : BotState
  reqs : List AddOrderRequest
  ok : Bool

/-- One side's loop of `create_grid_orders`: runs only when the
computed count is positive (`if buy_orders_count > 0`) and the volume
is not `None`; the grid levels are `1 .. count` away from the current
price, all orders sharing the side's one computed volume. -/
def createSideOrders (env : Env) (st : BotState) (p side : String)
    (cfg : PairConfig) (cp : ℚ) (count : ℤ) : List AddOrderRequest × ℕ :=
  if 0 < count then
    match calculateOrderVolume env st p side cfg cp count.toNat with
    | none => ([], 0)
    | some v => placeRun env p side v cp cfg 0 count.toNat
  else ([], 0)

/-- `ImprovedGridBot.create_grid_orders`: compute the affordable
per-side counts, place each ladder (buys below the price, then sells
above it), then record `grid_center_prices[pair] = current_price` and
set `expected_order_counts[pair]` to the counts of orders actually
confirmed placed. -/
def createGridOrders (env : Env) (st : BotState) (p : String)
    (cfg : PairConfig) : CreateResult :=
  match env.prices p with
  | none => { state := st, reqs := [], ok := false }
  | some cp =>
      let bres := createSideOrders env st p "buy" cfg cp (gridSideCounts env st p cfg cp).1
      let sres := createSideOrders env st p "sell" cfg cp (gridSideCounts env st p cfg cp).2
      let l : PairSt :=
        { exp := some (bres.2, sres.2)
          center := some cp
          lastRepo := (st.pairs p).lastRepo }
      { state := { st with pairs := setKey st.pairs p l },
        reqs := bres.1 ++ sres.1, ok := true }

/-! ## Reposition controller -/

/-- `ImprovedGridBot.check_grid_reposition_needed`.  Note that
`grid_range_percent = (grid_interval / 100.0) * max_orders_per_side`
is a price fraction while `price_deviation` is in percent; the code
compares them directly.  A zero grid center raises
`ZeroDivisionError`, caught as `False`. -/
def checkGridRepositionNeeded (env : Env) (st : BotState) (p : String)
    (cfg : PairConfig) : Bool :=
  if !cfg.dynamic_grid_reposition then false
  else
    match env.prices p, (st.pairs p).center with
    | some cp, some gc =>
        let cooldownBlocked :=
          match (st.pairs p).lastRepo with
          | some t => decide (env.now - t < cfg.grid_reposition_cooldown)
          | none => false
        if cooldownBlocked then false
        else if gc = 0 then false
        else
          let gridRangePercent := cfg.grid_interval / 100 * cfg.max_orders_per_side
          let priceDeviation := |(cp - gc) / gc| * 100
          decide (gridRangePercent + cfg.grid_reposition_threshold < priceDeviation)
    | _, _ => false

/-- Modelled from the spec: the reposition trigger condition as the
specification states it — deviation percent strictly greater than
`interval × max_orders_per_side + threshold` (both sides in percent),
with dynamic repositioning enabled and the cooldown elapsed.  Kept
separate from `checkGridRepositionNeeded` (the code) for comparison. -/
def specRepositionTrigger (env : Env) (st : BotState) (p : String)
    (cfg : PairConfig) : Bool :=
  if !cfg.dynamic_grid_reposition then false
  else
    match env.prices p, (st.pairs p).center with
    | some cp, some gc =>
        let cooldownBlocked :=
          match (st.pairs p).lastRepo with
          | some t => decide (env.now - t < cfg.grid_reposition_cooldown)
          | none => false
        if cooldownBlocked then false
        else if gc = 0 then false
        else
          let sideSpanPercent := cfg.grid_interval * cfg.max_orders_per_side
          let priceDeviation := |(cp - gc) / gc| * 100
          decide (sideSpanPercent + cfg.grid_reposition_threshold < priceDeviation)
    | _, _ => false

/-- `ImprovedGridBot.reposition_grid`: cancel the pair's orders,
refresh balances and prices, recreate the grid, and on success record
the reposition time.  (`create_grid_orders` only fails here when the
pair has no tracked price.) -/
def repositionGrid (env : Env) (st : BotState) (p : String)
    (cfg : PairConfig) : BotState × List AddOrderRequest :=
  let st := refreshBalances env st
  let r := createGridOrders env st p cfg
  if r.ok then
    let l : PairSt := { r.state.pairs p with lastRepo := some env.now }
    ({ r.state with pairs := setKey r.state.pairs p l }, r.reqs)
  else (r.state, r.reqs)

/-! ## Reconciliation engine (`monitor_and_replace_orders`) -/

/-- Aggregation of open orders into per-pair `{buy, sell}` counts
(`orders_by_pair`); orders with an empty pair string or failing pair
resolution are skipped, and unrecognised order types count on neither
side. -/
def ordersByPair (os : List (String × OrderInfo)) (p : String) : ℕ × ℕ :=
  os.foldl
    (fun acc o =>
      if o.2.pairStr = "" then acc
      else
        match matchOrderToPair o.2.pairStr with
        | none => acc
        | some q =>
            if q = p then
              if o.2.otype = "buy" then (acc.1 + 1, acc.2)
              else if o.2.otype = "sell" then (acc.1, acc.2 + 1)
              else acc
            else acc)
    (0, 0)

/-- The number of open orders collected into `unmatched_orders`. -/
def unmatchedCount (os : List (String × OrderInfo)) : ℕ :=
  (os.filter
    (fun o => !(o.2.pairStr == "") && (matchOrderToPair o.2.pairStr).isNone)).length

/-- The per-pair counts obtained by the re-fetch of open orders after
replacement placements (the `refreshed_pair_orders` loops). -/
def refreshedCounts (env : Env) (p : String) : ℕ × ℕ :=
  env.openOrders2.foldl
    (fun acc o =>
      if matchOrderToPair o.2.pairStr = some p then
        if o.2.otype = "buy" then (acc.1 + 1, acc.2)
        else if o.2.otype = "sell" then (acc.1, acc.2 + 1)
        else acc
      else acc)
    (0, 0)

/-- Write one pair's `expected_order_counts` entry (possibly clearing
it; used by the seed/clamp phase). -/
def writeExpOpt (st : BotState) (p : String) (e : Option (ℕ × ℕ)) : BotState :=
  writePair st p { st.pairs p with exp := e }

/-- One pair's step of the first loop of the monitor: seed
`expected_order_counts` from the observed counts when there is no
prior record (only if some order for the pair matched or nothing at
all was unmatched), else clamp each side that exceeds
`max_orders_per_side` down to the observed count. -/
def seedClampVal (env : Env) (p : String) (cfg : PairConfig)
    (e : Option (ℕ × ℕ)) : Option (ℕ × ℕ) :=
  let c := ordersByPair env.openOrders p
  match e with
  | none =>
      if 0 < c.1 ∨ 0 < c.2 ∨ unmatchedCount env.openOrders = 0 then some c
      else none
  | some (eb, es) =>
      some (if cfg.max_orders_per_side < eb then c.1 else eb,
            if cfg.max_orders_per_side < es then c.2 else es)

/-- The whole first loop of the monitor over the enabled pairs. -/
def seedClampPhase (env : Env) (st : BotState) : BotState :=
  enabledPairs.foldl
    (fun s pc => writeExpOpt s pc.1 (seedClampVal env pc.1 pc.2 ((s.pairs pc.1).exp)))
    st

/-- The sell-fill branch of the monitor: when fewer sell orders are
observed than expected, refresh balances (`get_account_balance` — in
the static environment this recomputes the same snapshot), then try to
place one replacement buy order per inferred fill at grid levels
`buy_count + 1, buy_count + 2, ...` below the current price (volume
recomputed per iteration, skipped when falsy).  If at least one
replacement was placed, re-fetch open orders and set the pair's
expected counts to the freshly observed counts; otherwise set the sell
side to the observed count, keeping the previously read buy value. -/
def fillSell (env : Env) (st : BotState) (p : String) (cfg : PairConfig)
    (cp : ℚ) (cb cs eb es : ℕ) : BotState × List AddOrderRequest :=
  if cs < es then
    let st := refreshBalances env st
    let filledSells := es - cs
    let (reqs, placed) :=
      (List.range filledSells).foldl
        (fun acc (i : ℕ) =>
          match calculateOrderVolume env st p "buy" cfg cp 1 with
          | none => acc
          | some v =>
              if v = 0 then acc
              else
                let off := cfg.grid_interval / 100 * (cb + i + 1)
                let r := placeLimitOrder env p "buy" v (cp * (1 - off)) cfg
                (acc.1 ++ r.reqs, acc.2 + if r.ok then 1 else 0))
        ([], 0)
    if 0 < placed then (writeExp st p (refreshedCounts env p), reqs)
    else (writeExp st p (eb, cs), reqs)
  else (st, [])

/-- The buy-fill branch of the monitor, symmetric to `fillSell`:
replacement sell orders at grid levels `sell_count + 1, ...` above the
current price; on total failure the buy side is set to the observed
count, keeping the previously read sell value. -/
def fillBuy (env : Env) (st : BotState) (p : String) (cfg : PairConfig)
    (cp : ℚ) (cb cs eb es : ℕ) : BotState × List AddOrderRequest :=
  if cb < eb then
    let st := refreshBalances env st
    let filledBuys := eb - cb
    let (reqs, placed) :=
      (List.range filledBuys).foldl
        (fun acc (i : ℕ) =>
          match calculateOrderVolume env st p "sell" cfg cp 1 with
          | none => acc
          | some v =>
              if v = 0 then acc
              else
                let off := cfg.grid_interval / 100 * (cs + i + 1)
                let r := placeLimitOrder env p "sell" v (cp * (1 + off)) cfg
                (acc.1 ++ r.reqs, acc.2 + if r.ok then 1 else 0))
        ([], 0)
    if 0 < placed then (writeExp st p (refreshedCounts env p), reqs)
    else (writeExp st p (cb, es), reqs)
  else (st, [])

/-- Both fill-inference branches in source order (the locals
`expected_buy`/`expected_sell` are read once before either branch and
are not re-read in between). -/
def fillPhase (env : Env) (st : BotState) (p : String) (cfg : PairConfig)
    (cp : ℚ) (cb cs eb es : ℕ) : BotState × List AddOrderRequest :=
  let r1 := fillSell env st p cfg cp cb cs eb es
  let r2 := fillBuy env r1.1 p cfg cp cb cs eb es
  (r2.1, r1.2 ++ r2.2)

/-- The buy-side top-up block of the monitor.  Returns the state, the
issued requests, and the (possibly updated) local `expected_buy`
variable that the subsequent sell-side block will use in its write. -/
def topUpBuy (env : Env) (st : BotState) (p : String) (cfg : PairConfig)
    (cp : ℚ) (cb ebLoc esLoc : ℕ) : BotState × List AddOrderRequest × ℕ :=
  if cb < cfg.min_orders_per_side then
    let baseBal := readBalance st cfg.base_asset
    let avail := baseBal * (95/100)
    let minOrderVal :=
      if p = "ETH/USD" then cp * cfg.min_order_size
      else
        let bu := effBtcUsdCalc env
        if 0 < bu then cfg.min_order_size / bu else 0.0001
    let maxAffordable0 := if 0 < minOrderVal then ratTrunc (avail / minOrderVal) else 0
    let maxAffordable := min (cfg.max_orders_per_side : ℤ) maxAffordable0
    let needed := max 0 (min (maxAffordable - cb) ((cfg.max_orders_per_side : ℤ) - cb))
    if 0 < needed then
      match calculateOrderVolume env st p "buy" cfg cp needed.toNat with
      | none => (st, [], ebLoc)
      | some v =>
          if v = 0 then (st, [], ebLoc)
          else
            let pr := placeRun env p "buy" v cp cfg cb needed.toNat
            if 0 < pr.2 then (writeExp st p (cb + pr.2, esLoc), pr.1, cb + pr.2)
            else (st, pr.1, ebLoc)
    else (st, [], ebLoc)
  else if cb < cfg.max_orders_per_side then
    let baseBal := readBalance st cfg.base_asset
    let avail := baseBal * (95/100)
    let minOrderVal :=
      if p = "ETH/USD" then cp * cfg.min_order_size
      else cfg.min_order_size / effBtcUsdCalc env
    let maxAffordable0 := if 0 < minOrderVal then ratTrunc (avail / minOrderVal) else 0
    let canAdd := min ((cfg.max_orders_per_side : ℤ) - cb) (max 0 (maxAffordable0 - cb))
    if 0 < canAdd then
      match calculateOrderVolume env st p "buy" cfg cp canAdd.toNat with
      | none => (st, [], ebLoc)
      | some v =>
          if v = 0 then (st, [], ebLoc)
          else
            let pr := placeRun env p "buy" v cp cfg cb canAdd.toNat
            if 0 < pr.2 then (writeExp st p (cb + pr.2, esLoc), pr.1, cb + pr.2)
            else (st, pr.1, ebLoc)
    else (st, [], ebLoc)
  else (st, [], ebLoc)

/-- The sell-side top-up block of the monitor; its write uses the
current local `expected_buy` handed on by the buy-side block (the
incoming local `expected_sell` is overwritten before use there). -/
def topUpSell (env : Env) (st : BotState) (p : String) (cfg : PairConfig)
    (cp : ℚ) (cs ebLoc _esLoc : ℕ) : BotState × List AddOrderRequest :=
  if cs < cfg.min_orders_per_side then
    let quoteBal := readBalance st cfg.quote_asset
    let avail := quoteBal * (95/100)
    let minSize :=
      if p = "ETH/USD" then cfg.min_order_size
      else
        let bu := effBtcUsdCalc env
        let xrpUsd := cp * bu
        if 0 < xrpUsd then cfg.min_order_size / xrpUsd else 5
    let maxPossible0 := if 0 < minSize then ratTrunc (avail / minSize) else 0
    let maxPossible := min (cfg.max_orders_per_side : ℤ) maxPossible0
    let needed := max 0 (min (maxPossible - cs) ((cfg.max_orders_per_side : ℤ) - cs))
    if 0 < needed then
      match calculateOrderVolume env st p "sell" cfg cp needed.toNat with
      | none => (st, [])
      | some v =>
          if v = 0 then (st, [])
          else
            let pr := placeRun env p "sell" v cp cfg cs needed.toNat
            if 0 < pr.2 then (writeExp st p (ebLoc, cs + pr.2), pr.1)
            else (st, pr.1)
    else (st, [])
  else if cs < cfg.max_orders_per_side then
    let quoteBal := readBalance st cfg.quote_asset
    let avail := quoteBal * (95/100)
    let minSize :=
      if p = "ETH/USD" then cfg.min_order_size
      else
        let bu := effBtcUsdCalc env
        let xrpUsd := cp * bu
        if 0 < xrpUsd then cfg.min_order_size / xrpUsd else 5
    let maxAffordable0 := if 0 < minSize then ratTrunc (avail / minSize) else 0
    let canAdd := min ((cfg.max_orders_per_side : ℤ) - cs) (max 0 (maxAffordable0 - cs))
    if 0 < canAdd then
      match calculateOrderVolume env st p "sell" cfg cp canAdd.toNat with
      | none => (st, [])
      | some v =>
          if v = 0 then (st, [])
          else
            let pr := placeRun env p "sell" v cp cfg cs canAdd.toNat
            if 0 < pr.2 then (writeExp st p (ebLoc, cs + pr.2), pr.1)
            else (st, pr.1)
    else (st, [])
  else (st, [])

/-- Accumulator of the second loop of the monitor: bot state, all
`AddOrder` requests issued so far this tick, and the pairs for which a
`CancelAll` was issued (by a reposition). -/
structure TickAcc where
  state : BotState
  reqs : List AddOrderRequest
  cancels : List String

/-- The body of the second loop of the monitor for one pair: skip
pairs without a tracked price; reposition-and-continue when the
reposition check fires; otherwise run fill inference and then the two
top-up blocks. -/
def processPair (env : Env) (acc : TickAcc) (p : String) (cfg : PairConfig) :
    TickAcc :=
  match env.prices p with
  | none => acc
  | some cp =>
      if checkGridRepositionNeeded env acc.state p cfg then
        let r := repositionGrid env acc.state p cfg
        { state := r.1, reqs := acc.reqs ++ r.2, cancels := acc.cancels ++ [p] }
      else
        let c := ordersByPair env.openOrders p
        let cb := c.1
        let cs := c.2
        let e := ((acc.state.pairs p).exp).getD (0, 0)
        let eb := e.1
        let es := e.2
        let f := fillPhase env acc.state p cfg cp cb cs eb es
        let t1 := topUpBuy env f.1 p cfg cp cb eb es
        let t2 := topUpSell env t1.1 p cfg cp cs t1.2.2 es
        { state := t2.1, reqs := acc.reqs ++ f.2 ++ t1.2.1 ++ t2.2,
          cancels := acc.cancels }

/-- `ImprovedGridBot.monitor_and_replace_orders`: the seed/clamp loop
followed by the per-pair replacement loop over the enabled pairs. -/
def monitorTick (env : Env) (st : BotState) : TickAcc :=
  let st1 := seedClampPhase env st
  enabledPairs.foldl (fun acc pc => processPair env acc pc.1 pc.2)
    { state := st1, reqs := [], cancels := [] }

/-- One iteration of the main trading loop: `get_account_balance`,
`get_current_prices` (the prices live in `env`), then the monitor. -/
def loopTick (env : Env) (st : BotState) : TickAcc :=
  monitorTick env (refreshBalances env st)

/-! ## The resolution chain as the specification describes it

The three stages below spell out the claim's resolution order over the
two configured pairs (whose exchange-native identifiers are the
literals `XXRPXXBT` and `XETHZUSD`, iterated in configuration order);
they are compared with `matchOrderToPair` in the theorems. -/

/-- Stage 1: exact case-insensitive match of the (already upper-cased,
stripped) order pair string against a configured `kraken_pair`. -/
def exactStage (u : String) : Option String :=
  if "XXRPXXBT" = pyUpper u then some "XRP/BTC"
  else if "XETHZUSD" = pyUpper u then some "ETH/USD"
  else none

/-- Stage 2: translate through the static alias table, then match
exactly. -/
def aliasStage (u : String) : Option String :=
  exactStage (aliasOf u)

/-- Stage 3: structural fallback comparing after stripping the X/Z
currency-code decoration characters (`stripXZ "XXRPXXBT" = "RPBT"`,
`stripXZ "XETHZUSD" = "ETHUSD"`). -/
def structuralStage (u : String) : Option String :=
  if "RPBT" = stripXZ u then some "XRP/BTC"
  else if "ETHUSD" = stripXZ u then some "ETH/USD"
  else none

/-! ## Concrete scenarios used by examples, witnesses and
counterexamples -/

/-- A bot state with no durable pair records and no cached balances. -/
def stEmpty : BotState :=
  { pairs := fun _ => { exp := none, center := none, lastRepo := none }
    balances := []
    availableBalances := [] }

/-- Environment for the balance-derivation witness: one open ETH/USD
buy order locking 20 USD. -/
def envC4 : Env :=
  { openOrders := [("o1", { otype := "buy", vol := 2, price := 10, pairStr := "ETHUSD" })]
    openOrders2 := []
    totals := [("ZUSD", 100), ("XETH", 5)]
    prices := fun _ => none
    btcUsd := none
    accepts := fun _ => true
    now := 0 }

/-- Environment for the reposition-trigger scenarios: ETH/USD price
parameterised, grid centered at 100, no prior reposition. -/
def envC6 (price : ℚ) : Env :=
  { openOrders := []
    openOrders2 := []
    totals := []
    prices := fun p => if p = "ETH/USD" then some price else none
    btcUsd := none
    accepts := fun _ => true
    now := 1000 }

/-- State for the reposition-trigger scenarios. -/
def stC6 : BotState :=
  { pairs := fun p =>
      if p = "ETH/USD" then { exp := some (0, 0), center := some 100, lastRepo := none }
      else { exp := none, center := none, lastRepo := none }
    balances := []
    availableBalances := [] }

/-- The configuration of the end-to-end grid example of the spec:
`max = 3`, `min = 1`, 1 % interval, minimum order size 1 (quote-asset
units on the ETH/USD code path). -/
def exCfg : PairConfig :=
  { grid_interval := 1
    precision := 8
    volume_precision := 8
    min_order_size := 1
    base_asset := "ZUSD"
    quote_asset := "XETH"
    kraken_pair := "XETHZUSD"
    max_orders_per_side := 3
    min_orders_per_side := 1
    dynamic_grid_reposition := false
    grid_reposition_threshold := 5
    grid_reposition_cooldown := 300 }

/-- State for the end-to-end grid example: available balance supports
exactly two orders per side (`0.95 × 250 = 237.5` USD against a 100
USD per-order minimum; `0.95 × 2.5 = 2.375` ETH against 1 ETH). -/
def exSt : BotState :=
  { pairs := fun _ => { exp := none, center := none, lastRepo := none }
    balances := [("ZUSD", 250), ("XETH", 2.5)]
    availableBalances := [("ZUSD", 250), ("XETH", 2.5)] }

/-- Environment for the end-to-end grid example: current price 100,
every placement accepted. -/
def exEnv : Env :=
  { openOrders := []
    openOrders2 := []
    totals := [("ZUSD", 250), ("XETH", 2.5)]
    prices := fun p => if p = "ETH/USD" then some 100 else none
    btcUsd := none
    accepts := fun _ => true
    now := 0 }

/-- Environment like `exEnv` but where the exchange rejects the orders
priced 98 and 101 (a mixed success/failure combination). -/
def exEnvFail : Env :=
  { exEnv with accepts := fun r => if r.price = 98 ∨ r.price = 101 then false else true }

/-- Four open ETH/USD buy orders and four sells (as Kraken reports
them, pair string `ETHUSD`). -/
def fourByFour : List (String × OrderInfo) :=
  [("b1", { otype := "buy", vol := 0.1, price := 95, pairStr := "ETHUSD" }),
   ("b2", { otype := "buy", vol := 0.1, price := 94, pairStr := "ETHUSD" }),
   ("b3", { otype := "buy", vol := 0.1, price := 93, pairStr := "ETHUSD" }),
   ("b4", { otype := "buy", vol := 0.1, price := 92, pairStr := "ETHUSD" }),
   ("s1", { otype := "sell", vol := 0.1, price := 105, pairStr := "ETHUSD" }),
   ("s2", { otype := "sell", vol := 0.1, price := 106, pairStr := "ETHUSD" }),
   ("s3", { otype := "sell", vol := 0.1, price := 107, pairStr := "ETHUSD" }),
   ("s4", { otype := "sell", vol := 0.1, price := 108, pairStr := "ETHUSD" })]

/-- Environment for the fill-inference example: observed 4 buys and 4
sells, ample balances, every placement accepted.  The re-fetch of open
orders additionally sees one of the 2 replacement buys (the other has
not registered yet), so the freshly observed counts differ from what
arithmetic incrementing of the prior record would give. -/
def c1env : Env :=
  { openOrders := fourByFour
    openOrders2 :=
      fourByFour ++
      [("n1", { otype := "buy", vol := 1, price := 92.5, pairStr := "ETHUSD" })]
    totals := [("ZUSD", 10000), ("XETH", 10)]
    prices := fun p => if p = "ETH/USD" then some 100 else none
    btcUsd := none
    accepts := fun _ => true
    now := 0 }

/-- State for the fill-inference example: prior expected counts
`{buy: 4, sell: 6}` for ETH/USD. -/
def c1st : BotState :=
  { pairs := fun p =>
      if p = "ETH/USD" then { exp := some (4, 6), center := none, lastRepo := none }
      else { exp := some (0, 0), center := none, lastRepo := none }
    balances := []
    availableBalances := [] }

/-- Environment of the double-sided fill-failure scenario: one
ETH/USD buy and one sell open, zero balances (every volume computation
infeasible), prices present, nothing ever accepted because nothing is
ever submitted. -/
def bothEnv : Env :=
  { openOrders :=
      [("a", { otype := "buy", vol := 1, price := 95, pairStr := "ETHUSD" }),
       ("b", { otype := "sell", vol := 1, price := 105, pairStr := "ETHUSD" })]
    openOrders2 := []
    totals := []
    prices := fun p => if p = "ETH/USD" then some 100 else none
    btcUsd := none
    accepts := fun _ => true
    now := 0 }

/-- State of the double-sided fill-failure scenario: expected
`{buy: 2, sell: 3}` against observed `{buy: 1, sell: 1}`. -/
def bothSt : BotState :=
  { pairs := fun p =>
      if p = "ETH/USD" then { exp := some (2, 3), center := none, lastRepo := none }
      else { exp := some (0, 0), center := none, lastRepo := none }
    balances := []
    availableBalances := [] }

/-- The buy-side affordability bound of the monitor top-up blocks:
`int(available_balance / min_order_value)` with the 95 % reserve, the
per-order minimum being `price × min_order_size` on ETH/USD and the
USD minimum converted at the effective BTC/USD price otherwise (as in
the code's two buy top-up branches, which agree whenever the effective
BTC/USD price is positive). -/
def topUpBuyBound (env : Env) (st : BotState) (p : String) (cfg : PairConfig)
    (cp : ℚ) : ℤ :=
  let minOrderVal :=
    if p = "ETH/USD" then cp * cfg.min_order_size
    else cfg.min_order_size / effBtcUsdCalc env
  if 0 < minOrderVal then
    ratTrunc (readBalance st cfg.base_asset * (95/100) / minOrderVal)
  else 0

/-- The sell-side affordability bound of the monitor top-up blocks:
the per-order minimum is `min_order_size` of quote currency on ETH/USD
and the USD minimum converted at the quote-in-USD price otherwise. -/
def topUpSellBound (env : Env) (st : BotState) (p : String) (cfg : PairConfig)
    (cp : ℚ) : ℤ :=
  let minSize :=
    if p = "ETH/USD" then cfg.min_order_size
    else cfg.min_order_size / (cp * effBtcUsdCalc env)
  if 0 < minSize then
    ratTrunc (readBalance st cfg.quote_asset * (95/100) / minSize)
  else 0

/-- The state after one monitor tick on the double-sided fill-failure
scenario: the sell branch's failure write `(2, 1)` is clobbered by the
buy branch's failure write restoring the stale expected sell count 3. -/
def bothSt1 : BotState :=
  writeExp (refreshBalances bothEnv (writeExp (refreshBalances bothEnv bothSt)
    "ETH/USD" (2, 1))) "ETH/USD" (1, 3)

/-- The state after a second monitor tick on the same environment: the
sell branch fires again off the stale record and writes `(1, 1)`. -/
def bothSt2 : BotState :=
  writeExp (refreshBalances bothEnv bothSt1) "ETH/USD" (1, 1)

/-- A quiescent environment: no open orders, no tracked prices, no
funds. -/
def quietEnv : Env :=
  { openOrders := []
    openOrders2 := []
    totals := []
    prices := fun _ => none
    btcUsd := none
    accepts := fun _ => true
    now := 0 }

/-- A state whose records match the quiescent environment's (empty)
observations. -/
def quietSt : BotState :=
  { pairs := fun _ => { exp := some (0, 0), center := none, lastRepo := none }
    balances := []
    availableBalances := [] }

/-! # Theorems -/

/-! ## Lock-accounting lemmas -/

theorem lockedFunds_foldl (os : List OrderInfo) (m : String → ℚ) (a : String) :
    (os.foldl lockedFundsStep m) a
      = m a + (os.map (fun o => lockContribution o a)).sum := by
  induction os generalizing m with
  | nil => simp
  | cons o t ih =>
      simp only [List.foldl_cons, List.map_cons, List.sum_cons]
      rw [ih]
      simp [lockedFundsStep, add_assoc]

theorem lockedFunds_eq_sum (os : List OrderInfo) (a : String) :
    lockedFunds os a = (os.map (fun o => lockContribution o a)).sum := by
  unfold lockedFunds
  rw [lockedFunds_foldl]
  simp

theorem lookup_map_value (f : String → ℚ → ℚ) (l : List (String × ℚ)) (a : String)
    (t : ℚ) (h : List.lookup a l = some t) :
    List.lookup a (l.map (fun kv => (kv.1, f kv.1 kv.2))) = some (f a t) := by
  induction l with
  | nil => simp at h
  | cons kv tl ih =>
      rcases kv with ⟨k, v⟩
      by_cases hk : a = k
      · subst hk
        simp_all [List.lookup]
      · have hb : (a == k) = false := beq_eq_false_iff_ne.mpr hk
        simp only [List.lookup, List.map_cons, hb] at h ⊢
        exact ih h

/-- C4: for every asset with a recorded custodial total and any set of
open orders, the available balance computed by `get_account_balance`
equals the total minus the sum of the lock contributions of the open
orders drawing on that asset, where a buy order contributes
`volume × price` of the currency being spent and a sell order
contributes `volume` of the currency being sold (that is the content
of `lockContribution`); an asset with no locked funds has available
equal to total. -/
theorem available_eq_total_sub_locked (env : Env) (a : String) (t : ℚ)
    (h : List.lookup a env.totals = some t) :
    List.lookup a (freshAvailList env)
        = some (t - (env.openOrders.map (fun o => lockContribution o.2 a)).sum)
    ∧ ((env.openOrders.map (fun o => lockContribution o.2 a)).sum = 0 →
        List.lookup a (freshAvailList env) = some t) := by
  have h2 : lockedFunds (env.openOrders.map Prod.snd) a
      = (env.openOrders.map (fun o => lockContribution o.2 a)).sum := by
    rw [lockedFunds_eq_sum, List.map_map]
    rfl
  have key : List.lookup a (freshAvailList env)
      = some (t - (env.openOrders.map (fun o => lockContribution o.2 a)).sum) := by
    have h1 := lookup_map_value
      (fun k v => v - lockedFunds (env.openOrders.map Prod.snd) k) env.totals a t h
    rw [← h2]
    exact h1
  exact ⟨key, fun hz => by rw [key, hz, sub_zero]⟩

/-- Witness: in `envC4`, ZUSD has total 100 and one open ETH/USD buy
order locks `2 × 10 = 20`, so the computed available is `100 − 20`. -/
theorem available_eq_total_sub_locked_witness :
    List.lookup "ZUSD" envC4.totals = some 100
    ∧ List.lookup "ZUSD" (freshAvailList envC4)
        = some (100 - (envC4.openOrders.map (fun o => lockContribution o.2 "ZUSD")).sum) :=
  ⟨by rfl, (available_eq_total_sub_locked envC4 "ZUSD" 100 (by rfl)).1⟩

/-! ## Reposition trigger (C6) -/

/-- C6 divergence: `check_grid_reposition_needed` computes the grid
span as the price fraction `interval/100 × max_orders_per_side`
(0.27 for the ETH/USD configuration) but compares it against a
deviation expressed in percent, so with grid center 100 a price of 125
(25 % deviation, within the claimed 27 % + 5 % band) already returns
`true`, while the trigger condition as specified
(`specRepositionTrigger`) is `false` there; at price 133 (33 %
deviation) both return `true`. -/
theorem reposition_trigger_unit_mismatch :
    checkGridRepositionNeeded (envC6 125) stC6 "ETH/USD" ethUsdConfig = true
    ∧ specRepositionTrigger (envC6 125) stC6 "ETH/USD" ethUsdConfig = false
    ∧ checkGridRepositionNeeded (envC6 133) stC6 "ETH/USD" ethUsdConfig = true
    ∧ specRepositionTrigger (envC6 133) stC6 "ETH/USD" ethUsdConfig = true := by
  refine ⟨?_, ?_, ?_, ?_⟩ <;>
    norm_num [checkGridRepositionNeeded, specRepositionTrigger, envC6, stC6,
      ethUsdConfig, abs]

/-! ## Minimum-size enforcement (C7) -/

/-- C7: whenever the comparison-unit value of the rounded order (raw
volume on the ETH/USD branch, the USD-converted value on the XRP/BTC
branch, `volume × price` otherwise) is below `config.min_order_size`,
`place_limit_order` returns `None` and never issues the `AddOrder`
request; conversely, on every path, a request is only issued after
that validation passed. -/
theorem place_limit_order_min_size :
    (∀ (env : Env) (p side : String) (volume price : ℚ) (cfg : PairConfig),
      comparisonUnitValue env p (pyRound volume cfg.volume_precision)
          (pyRound price cfg.precision) < cfg.min_order_size →
      placeLimitOrder env p side volume price cfg = { ok := false, reqs := [] })
    ∧ (∀ (env : Env) (p side : String) (volume price : ℚ) (cfg : PairConfig),
      (placeLimitOrder env p side volume price cfg).reqs ≠ [] →
      cfg.min_order_size ≤ comparisonUnitValue env p
        (pyRound volume cfg.volume_precision) (pyRound price cfg.precision)) := by
  constructor
  · intro env p side volume price cfg h
    simp [placeLimitOrder, h]
  · intro env p side volume price cfg h
    by_cases hlt : comparisonUnitValue env p (pyRound volume cfg.volume_precision)
        (pyRound price cfg.precision) < cfg.min_order_size
    · exfalso
      apply h
      simp [placeLimitOrder, hlt]
    · exact le_of_not_lt hlt

/-- Witness: an ETH/USD order of volume 0.001 (below the 0.005 ETH
minimum) is rejected without any request being issued. -/
theorem place_limit_order_min_size_witness :
    comparisonUnitValue exEnv "ETH/USD" (pyRound 0.001 ethUsdConfig.volume_precision)
        (pyRound 100 ethUsdConfig.precision) < ethUsdConfig.min_order_size
    ∧ placeLimitOrder exEnv "ETH/USD" "buy" 0.001 100 ethUsdConfig
        = { ok := false, reqs := [] } := by
  have h : comparisonUnitValue exEnv "ETH/USD"
      (pyRound 0.001 ethUsdConfig.volume_precision)
      (pyRound 100 ethUsdConfig.precision) < ethUsdConfig.min_order_size := by
    norm_num [comparisonUnitValue, pyRound, roundHalfEven, ethUsdConfig]
  exact ⟨h, place_limit_order_min_size.1 exEnv "ETH/USD" "buy" 0.001 100 ethUsdConfig h⟩

/-! ## Volume sizing (C9) -/

theorem share_lt_of_below (a m : ℚ) (n : ℕ) (hn : 0 < n) (hm : 0 < m) (h : a < m) :
    a / n < m := by
  rcases le_or_lt 0 a with ha | ha
  · have h1 : a / n ≤ a := div_le_self ha (by exact_mod_cast hn)
    linarith
  · have h1 : a / (n:ℚ) < 0 := div_neg_of_neg_of_pos ha (by exact_mod_cast hn)
    linarith

/-- C9: `calculate_order_volume` reserves 95 % of the available
balance read for the funding asset, divides it evenly across
`ordersCount` orders, and returns the per-order volume (buys convert
the per-order quote amount into volume by dividing by the price); it
returns `None` exactly when a single order's share would fall below
the configured minimum — in particular when the whole reserved balance
is below one minimum, since that initial check is subsumed by the
per-share one.  Stated for the ETH/USD branch (minimum in ETH) and for
the cross-quoted branch taken by every other pair (minimum of
`min_order_size` USD converted at the effective BTC/USD price). -/
theorem calculate_order_volume_spec (env : Env) (st : BotState) (cfg : PairConfig)
    (cp : ℚ) (n : ℕ) (hcp : 0 < cp) (hn : 0 < n)
    (hmin : 0 < cfg.min_order_size) :
    (calculateOrderVolume env st "ETH/USD" "buy" cfg cp n
        = if readBalance st cfg.base_asset * (95/100) / n / cp < cfg.min_order_size
          then none else some (readBalance st cfg.base_asset * (95/100) / n / cp))
    ∧ (calculateOrderVolume env st "ETH/USD" "sell" cfg cp n
        = if readBalance st cfg.quote_asset * (95/100) / n < cfg.min_order_size
          then none else some (readBalance st cfg.quote_asset * (95/100) / n))
    ∧ (∀ p, p ≠ "ETH/USD" → 0 < effBtcUsdCalc env →
        (calculateOrderVolume env st p "buy" cfg cp n
          = if readBalance st cfg.base_asset * (95/100) / n / cp
                < cfg.min_order_size / (cp * effBtcUsdCalc env)
            then none
            else some (readBalance st cfg.base_asset * (95/100) / n / cp))
        ∧ (calculateOrderVolume env st p "sell" cfg cp n
          = if readBalance st cfg.quote_asset * (95/100) / n
                < cfg.min_order_size / (cp * effBtcUsdCalc env)
            then none
            else some (readBalance st cfg.quote_asset * (95/100) / n))) := by
  have hnq : (0:ℚ) < n := by exact_mod_cast hn
  refine ⟨?_, ?_, ?_⟩
  · by_cases h1 : readBalance st cfg.base_asset * (95/100) < cp * cfg.min_order_size
    · have h2 : readBalance st cfg.base_asset * (95/100) / n < cp * cfg.min_order_size :=
        share_lt_of_below _ _ n hn (by positivity) h1
      have h3 : readBalance st cfg.base_asset * (95/100) / n / cp < cfg.min_order_size := by
        rw [div_lt_iff₀ hcp]
        rwa [mul_comm cfg.min_order_size cp]
      simp [calculateOrderVolume, hn.ne', h1, hcp.ne', h3]
    · simp [calculateOrderVolume, hn.ne', h1, hcp.ne']
  · by_cases h1 : readBalance st cfg.quote_asset * (95/100) < cfg.min_order_size
    · have h2 : readBalance st cfg.quote_asset * (95/100) / n < cfg.min_order_size :=
        share_lt_of_below _ _ n hn hmin h1
      simp [calculateOrderVolume, hn.ne', h1, h2]
    · simp [calculateOrderVolume, hn.ne', h1]
  · intro p hp hbu
    have hxr : 0 < cp * effBtcUsdCalc env := mul_pos hcp hbu
    have hminbtc : 0 < cfg.min_order_size / effBtcUsdCalc env := div_pos hmin hbu
    have hminxrp : 0 < cfg.min_order_size / (cp * effBtcUsdCalc env) := div_pos hmin hxr
    constructor
    · by_cases h1 : readBalance st cfg.base_asset * (95/100)
          < cfg.min_order_size / effBtcUsdCalc env
      · have h2 : readBalance st cfg.base_asset * (95/100) / n
            < cfg.min_order_size / effBtcUsdCalc env :=
          share_lt_of_below _ _ n hn hminbtc h1
        have h2' : readBalance st cfg.base_asset * (95/100) / n * effBtcUsdCalc env
            < cfg.min_order_size := (lt_div_iff₀ hbu).mp h2
        have h3 : readBalance st cfg.base_asset * (95/100) / n / cp
            < cfg.min_order_size / (cp * effBtcUsdCalc env) := by
          rw [div_lt_div_iff₀ hcp hxr]
          nlinarith [h2', hcp]
        simp [calculateOrderVolume, hn.ne', hp, h1, hcp.ne', hbu, hxr, h3]
      · simp [calculateOrderVolume, hn.ne', hp, h1, hcp.ne', hbu, hxr]
    · by_cases h1 : readBalance st cfg.quote_asset * (95/100)
          < cfg.min_order_size / (cp * effBtcUsdCalc env)
      · have h2 : readBalance st cfg.quote_asset * (95/100) / n
            < cfg.min_order_size / (cp * effBtcUsdCalc env) :=
          share_lt_of_below _ _ n hn hminxrp h1
        simp [calculateOrderVolume, hn.ne', hp, h1, hxr, h2]
      · simp [calculateOrderVolume, hn.ne', hp, h1, hxr]

/-- Witness: in the end-to-end example state (available 250 USD,
price 100, two orders), the buy volume is the reserved half-share
`250 × 0.95 / 2 / 100`. -/
theorem calculate_order_volume_spec_witness :
    (0:ℚ) < 100 ∧ 0 < 2 ∧ (0:ℚ) < exCfg.min_order_size
    ∧ calculateOrderVolume exEnv exSt "ETH/USD" "buy" exCfg 100 2
        = if readBalance exSt exCfg.base_asset * (95/100) / (2:ℕ) / 100
              < exCfg.min_order_size
          then none
          else some (readBalance exSt exCfg.base_asset * (95/100) / (2:ℕ) / 100) :=
  ⟨by norm_num, by norm_num, by norm_num [exCfg],
    (calculate_order_volume_spec exEnv exSt exCfg 100 2 (by norm_num) (by norm_num)
      (by norm_num [exCfg])).1⟩

/-! ## Pair resolution (C8) -/

theorem aliasOf_eq_self_of_ne (u : String)
    (h1 : u ≠ "ETHUSD") (h2 : u ≠ "ETH/USD") (h3 : u ≠ "XETHUSD")
    (h4 : u ≠ "ETHZUSD") (h5 : u ≠ "XRPBTC") (h6 : u ≠ "XRP/BTC")
    (h7 : u ≠ "XRPXXBT") (h8 : u ≠ "XXRPXBT") (h9 : u ≠ "XRPXBT") :
    aliasOf u = u := by
  simp [aliasOf, h1, h2, h3, h4, h5, h6, h7, h8, h9]

theorem aliasOf_self_of_exact_hit (u : String)
    (h : "XXRPXXBT" = pyUpper u ∨ "XETHZUSD" = pyUpper u) : aliasOf u = u := by
  apply aliasOf_eq_self_of_ne <;>
    (intro e; subst e; rcases h with h | h <;> exact absurd h (by decide))

theorem matchLoop1_self (u : String) :
    matchLoop1 u u enabledPairs = exactStage u := by
  have e1 : pyUpper "XXRPXXBT" = "XXRPXXBT" := by decide
  have e2 : pyUpper "XETHZUSD" = "XETHZUSD" := by decide
  simp only [enabledPairs, matchLoop1, exactStage, xrpBtcConfig, ethUsdConfig]
  rw [e1, e2]
  by_cases hc1 : "XXRPXXBT" = pyUpper u
  · simp [hc1]
  · by_cases hc2 : "XXRPXXBT" = u
    · subst hc2
      exact absurd (by decide) hc1
    · by_cases hc3 : "XETHZUSD" = pyUpper u
      · simp [hc1, hc2, hc3]
      · by_cases hc4 : "XETHZUSD" = u
        · subst hc4
          exact absurd (by decide) hc3
        · simp [hc1, hc2, hc3, hc4]

theorem matchLoop2_eq_structural (u : String) :
    matchLoop2 u enabledPairs = structuralStage u := by
  have e1 : stripXZ (pyUpper "XXRPXXBT") = "RPBT" := by decide
  have e2 : stripXZ (pyUpper "XETHZUSD") = "ETHUSD" := by decide
  simp only [enabledPairs, matchLoop2, structuralStage, xrpBtcConfig, ethUsdConfig]
  rw [e1, e2]

/-- C8 (amended): `match_order_to_pair` realises the three-stage
resolution chain — (1) exact case-insensitive match against a
configured exchange-native pair id, (2) the static alias table, (3)
the structural fallback stripping X/Z decoration characters — and an
order failing all three stages is excluded from the per-pair order
counts while the aggregation over the remaining orders continues (the
function is total, so resolution never aborts the tick). -/
theorem match_order_resolution_chain :
    (∀ s : String, (exactStage (pyStrip (pyUpper s))).isSome →
        matchOrderToPair s = exactStage (pyStrip (pyUpper s)))
    ∧ (∀ s : String, exactStage (pyStrip (pyUpper s)) = none →
        (aliasStage (pyStrip (pyUpper s))).isSome →
        matchOrderToPair s = aliasStage (pyStrip (pyUpper s)))
    ∧ (∀ s : String, exactStage (pyStrip (pyUpper s)) = none →
        aliasStage (pyStrip (pyUpper s)) = none →
        matchOrderToPair s = structuralStage (pyStrip (pyUpper s)))
    ∧ (∀ (os : List (String × OrderInfo)) (oid : String) (o : OrderInfo)
        (p : String), matchOrderToPair o.pairStr = none →
        ordersByPair (os ++ [(oid, o)]) p = ordersByPair os p) := by
  refine ⟨?_, ?_, ?_, ?_⟩
  · intro s hx
    have hs : s ≠ "" := by
      intro e
      rw [e] at hx
      exact absurd hx (by decide)
    have hdisj : "XXRPXXBT" = pyUpper (pyStrip (pyUpper s))
        ∨ "XETHZUSD" = pyUpper (pyStrip (pyUpper s)) := by
      by_cases hc1 : "XXRPXXBT" = pyUpper (pyStrip (pyUpper s))
      · exact Or.inl hc1
      · by_cases hc2 : "XETHZUSD" = pyUpper (pyStrip (pyUpper s))
        · exact Or.inr hc2
        · exact absurd hx (by simp [exactStage, hc1, hc2])
    have ha := aliasOf_self_of_exact_hit _ hdisj
    unfold matchOrderToPair
    rw [if_neg hs, ha, matchLoop1_self]
    rcases Option.isSome_iff_exists.mp hx with ⟨p, hp⟩
    rw [hp]
  · intro s h1 h2
    have hs : s ≠ "" := by
      intro e
      rw [e] at h2
      exact absurd h2 (by decide)
    by_cases k1 : pyStrip (pyUpper s) = "ETHUSD"
    · unfold matchOrderToPair; rw [if_neg hs, k1]; decide
    by_cases k2 : pyStrip (pyUpper s) = "ETH/USD"
    · unfold matchOrderToPair; rw [if_neg hs, k2]; decide
    by_cases k3 : pyStrip (pyUpper s) = "XETHUSD"
    · unfold matchOrderToPair; rw [if_neg hs, k3]; decide
    by_cases k4 : pyStrip (pyUpper s) = "ETHZUSD"
    · unfold matchOrderToPair; rw [if_neg hs, k4]; decide
    by_cases k5 : pyStrip (pyUpper s) = "XRPBTC"
    · unfold matchOrderToPair; rw [if_neg hs, k5]; decide
    by_cases k6 : pyStrip (pyUpper s) = "XRP/BTC"
    · unfold matchOrderToPair; rw [if_neg hs, k6]; decide
    by_cases k7 : pyStrip (pyUpper s) = "XRPXXBT"
    · unfold matchOrderToPair; rw [if_neg hs, k7]; decide
    by_cases k8 : pyStrip (pyUpper s) = "XXRPXBT"
    · unfold matchOrderToPair; rw [if_neg hs, k8]; decide
    by_cases k9 : pyStrip (pyUpper s) = "XRPXBT"
    · unfold matchOrderToPair; rw [if_neg hs, k9]; decide
    have ha := aliasOf_eq_self_of_ne _ k1 k2 k3 k4 k5 k6 k7 k8 k9
    rw [aliasStage, ha] at h2
    rw [h1] at h2
    exact absurd h2 (by decide)
  · intro s h1 h2
    by_cases hs : s = ""
    · subst hs
      decide
    by_cases k1 : pyStrip (pyUpper s) = "ETHUSD"
    · rw [k1] at h2; exact absurd h2 (by decide)
    by_cases k2 : pyStrip (pyUpper s) = "ETH/USD"
    · rw [k2] at h2; exact absurd h2 (by decide)
    by_cases k3 : pyStrip (pyUpper s) = "XETHUSD"
    · rw [k3] at h2; exact absurd h2 (by decide)
    by_cases k4 : pyStrip (pyUpper s) = "ETHZUSD"
    · rw [k4] at h2; exact absurd h2 (by decide)
    by_cases k5 : pyStrip (pyUpper s) = "XRPBTC"
    · rw [k5] at h2; exact absurd h2 (by decide)
    by_cases k6 : pyStrip (pyUpper s) = "XRP/BTC"
    · rw [k6] at h2; exact absurd h2 (by decide)
    by_cases k7 : pyStrip (pyUpper s) = "XRPXXBT"
    · rw [k7] at h2; exact absurd h2 (by decide)
    by_cases k8 : pyStrip (pyUpper s) = "XXRPXBT"
    · rw [k8] at h2; exact absurd h2 (by decide)
    by_cases k9 : pyStrip (pyUpper s) = "XRPXBT"
    · rw [k9] at h2; exact absurd h2 (by decide)
    have ha := aliasOf_eq_self_of_ne _ k1 k2 k3 k4 k5 k6 k7 k8 k9
    unfold matchOrderToPair
    rw [if_neg hs, ha, matchLoop1_self, h1, matchLoop2_eq_structural]
  · intro os oid o p hnone
    unfold ordersByPair
    rw [List.foldl_append]
    by_cases he : o.pairStr = ""
    · simp [he]
    · simp [he, hnone]

/-- Witness: the lower-case exact form resolves at stage 1; the string
`ETHUSDQ` fails all three stages and does not change the counts. -/
theorem match_order_resolution_chain_witness :
    (exactStage (pyStrip (pyUpper "xethzusd"))).isSome
    ∧ matchOrderToPair "xethzusd" = exactStage (pyStrip (pyUpper "xethzusd"))
    ∧ matchOrderToPair "ETHUSDQ" = none
    ∧ ordersByPair (fourByFour ++
        [("u1", { otype := "buy", vol := 1, price := 1, pairStr := "ETHUSDQ" })])
        "ETH/USD"
      = ordersByPair fourByFour "ETH/USD" :=
  ⟨by decide, match_order_resolution_chain.1 "xethzusd" (by decide), by decide,
    match_order_resolution_chain.2.2.2 fourByFour "u1"
      { otype := "buy", vol := 1, price := 1, pairStr := "ETHUSDQ" } "ETH/USD"
      (by decide)⟩

/-- C8 counterexample: an order whose pair string fails all three
resolution stages is nonetheless not excluded from lock accounting —
`get_account_balance` categorises orders by substring tests, so a buy
order on the unresolvable pair string `ETHUSDQ` still locks
`volume × price` of ZUSD. -/
theorem resolution_unmatched_still_locks :
    matchOrderToPair "ETHUSDQ" = none
    ∧ lockContribution
        { otype := "buy", vol := 1, price := 2, pairStr := "ETHUSDQ" } "ZUSD" = 2 := by
  constructor
  · decide
  · have hETH : strContains (pyUpper "ETHUSDQ") "ETH" = true := by decide
    have hUSD : strContains (pyUpper "ETHUSDQ") "USD" = true := by decide
    simp [lockContribution, hETH, hUSD]

/-! ## Placement-loop lemmas -/

theorem setKey_same {α : Type} (f : String → α) (k : String) (v : α) :
    setKey f k v k = v := by
  simp [setKey]

theorem setKey_other {α : Type} (f : String → α) (k x : String) (v : α)
    (h : x ≠ k) : setKey f k v x = f x := by
  simp [setKey, h]

theorem foldl_acc_pair {α : Type} (f : ℕ → List α) (g : ℕ → ℕ) (l : List ℕ)
    (a0 : List α) (b0 : ℕ) :
    l.foldl (fun acc i => (acc.1 ++ f i, acc.2 + g i)) (a0, b0)
      = (a0 ++ (l.map f).flatten, b0 + (l.map g).sum) := by
  induction l generalizing a0 b0 with
  | nil => simp
  | cons x t ih =>
      simp only [List.foldl_cons, List.map_cons, List.flatten_cons, List.sum_cons]
      rw [ih]
      simp [List.append_assoc, add_assoc]

/-- The price of the grid level `base + i + 1` on one side. -/
def levelPrice (side : String) (cp : ℚ) (cfg : PairConfig) (base i : ℕ) : ℚ :=
  if side = "buy" then cp * (1 - cfg.grid_interval / 100 * (base + i + 1))
  else cp * (1 + cfg.grid_interval / 100 * (base + i + 1))

theorem placeRun_eq (env : Env) (p side : String) (v cp : ℚ) (cfg : PairConfig)
    (base n : ℕ) :
    placeRun env p side v cp cfg base n
      = (((List.range n).map (fun i =>
            (placeLimitOrder env p side v (levelPrice side cp cfg base i) cfg).reqs)).flatten,
         ((List.range n).map (fun i =>
            if (placeLimitOrder env p side v (levelPrice side cp cfg base i) cfg).ok
            then 1 else 0)).sum) := by
  unfold placeRun levelPrice
  have h := foldl_acc_pair
    (fun i => (placeLimitOrder env p side v
      (if side = "buy" then cp * (1 - cfg.grid_interval / 100 * (base + i + 1))
       else cp * (1 + cfg.grid_interval / 100 * (base + i + 1))) cfg).reqs)
    (fun i => if (placeLimitOrder env p side v
      (if side = "buy" then cp * (1 - cfg.grid_interval / 100 * (base + i + 1))
       else cp * (1 + cfg.grid_interval / 100 * (base + i + 1))) cfg).ok
      then 1 else 0)
    (List.range n) [] 0
  simpa using h

theorem placeLimitOrder_cases (env : Env) (p side : String) (v pr : ℚ)
    (cfg : PairConfig) :
    placeLimitOrder env p side v pr cfg = { ok := false, reqs := [] }
    ∨ placeLimitOrder env p side v pr cfg
        = { ok := env.accepts (AddOrderRequest.mk cfg.kraken_pair side
              (pyRound pr cfg.precision) (pyRound v cfg.volume_precision)),
            reqs := [AddOrderRequest.mk cfg.kraken_pair side
              (pyRound pr cfg.precision) (pyRound v cfg.volume_precision)] } := by
  unfold placeLimitOrder
  by_cases h : comparisonUnitValue env p (pyRound v cfg.volume_precision)
      (pyRound pr cfg.precision) < cfg.min_order_size
  · left
    simp [h]
  · right
    simp [h]

theorem placeResult_filter_len (env : Env) (p side : String) (v pr : ℚ)
    (cfg : PairConfig) :
    (((placeLimitOrder env p side v pr cfg).reqs.filter
        (fun r => env.accepts r)).length)
      = if (placeLimitOrder env p side v pr cfg).ok then 1 else 0 := by
  rcases placeLimitOrder_cases env p side v pr cfg with h | h
  · rw [h]
    simp
  · rw [h]
    by_cases ha : env.accepts (AddOrderRequest.mk cfg.kraken_pair side
        (pyRound pr cfg.precision) (pyRound v cfg.volume_precision))
    · simp [ha]
    · simp [ha]

theorem length_filter_flatten {α : Type} (q : α → Bool) (l : List (List α)) :
    ((l.flatten).filter q).length
      = (l.map (fun x => (x.filter q).length)).sum := by
  induction l with
  | nil => simp
  | cons x t ih =>
      simp [List.filter_append, ih]
      rfl

theorem placeRun_placed (env : Env) (p side : String) (v cp : ℚ)
    (cfg : PairConfig) (base n : ℕ) :
    (placeRun env p side v cp cfg base n).2
      = (((placeRun env p side v cp cfg base n).1.filter
          (fun r => env.accepts r)).length) := by
  rw [placeRun_eq]
  dsimp only
  rw [length_filter_flatten, List.map_map]
  apply congrArg
  apply List.map_congr_left
  intro i _
  dsimp only [Function.comp]
  exact (placeResult_filter_len env p side v (levelPrice side cp cfg base i) cfg).symm

theorem placeRun_sides (env : Env) (p side : String) (v cp : ℚ)
    (cfg : PairConfig) (base n : ℕ) :
    ∀ r ∈ (placeRun env p side v cp cfg base n).1,
      r.side = side ∧ r.krakenPair = cfg.kraken_pair := by
  intro r hr
  rw [placeRun_eq] at hr
  dsimp only at hr
  simp only [List.mem_flatten, List.mem_map] at hr
  rcases hr with ⟨l, ⟨i, _, hl⟩, hrl⟩
  subst hl
  rcases placeLimitOrder_cases env p side v (levelPrice side cp cfg base i) cfg
    with h | h
  · rw [h] at hrl
    simp at hrl
  · rw [h] at hrl
    simp only [List.mem_singleton] at hrl
    subst hrl
    exact ⟨rfl, rfl⟩

/-! ## Grid creation (C2, C5) -/

theorem createSideOrders_spec (env : Env) (st : BotState) (p side : String)
    (cfg : PairConfig) (cp : ℚ) (count : ℤ) :
    (createSideOrders env st p side cfg cp count).2
      = (((createSideOrders env st p side cfg cp count).1.filter
          (fun r => env.accepts r)).length)
    ∧ ∀ r ∈ (createSideOrders env st p side cfg cp count).1,
        r.side = side ∧ r.krakenPair = cfg.kraken_pair := by
  unfold createSideOrders
  by_cases hc : 0 < count
  · simp only [hc, if_true]
    cases hv : calculateOrderVolume env st p side cfg cp count.toNat with
    | none => simp
    | some v =>
        exact ⟨placeRun_placed env p side v cp cfg 0 count.toNat,
          placeRun_sides env p side v cp cfg 0 count.toNat⟩
  · simp [hc]

theorem filter_sides_append (env : Env) (bR sR : List AddOrderRequest)
    (hb : ∀ r ∈ bR, r.side = "buy") (hs : ∀ r ∈ sR, r.side = "sell") :
    ((bR ++ sR).filter (fun q => q.side == "buy" && env.accepts q)).length
        = ((bR.filter (fun r => env.accepts r)).length)
    ∧ ((bR ++ sR).filter (fun q => q.side == "sell" && env.accepts q)).length
        = ((sR.filter (fun r => env.accepts r)).length) := by
  constructor
  · rw [List.filter_append]
    have e1 : bR.filter (fun q => q.side == "buy" && env.accepts q)
        = bR.filter (fun r => env.accepts r) :=
      List.filter_congr (fun x hx => by simp [hb x hx])
    have e2 : sR.filter (fun q => q.side == "buy" && env.accepts q) = [] :=
      List.filter_eq_nil_iff.mpr (fun a ha => by simp [hs a ha])
    rw [e1, e2]
    simp
  · rw [List.filter_append]
    have e1 : sR.filter (fun q => q.side == "sell" && env.accepts q)
        = sR.filter (fun r => env.accepts r) :=
      List.filter_congr (fun x hx => by simp [hs x hx])
    have e2 : bR.filter (fun q => q.side == "sell" && env.accepts q) = [] :=
      List.filter_eq_nil_iff.mpr (fun a ha => by simp [hb a ha])
    rw [e1, e2]
    simp

/-- C2: after `create_grid_orders` finishes for a pair with a tracked
price, the pair's `expected_order_counts` entry equals exactly the
numbers of buy orders and sell orders whose placement was confirmed (a
validated request the exchange accepted and answered with an order
id), for every acceptance pattern of the exchange (the `env.accepts`
function is universally quantified), never the intended per-side
counts; and the grid center price for the pair is set to the current
price the grid was built from. -/
theorem create_grid_expected_counts (env : Env) (st : BotState) (p : String)
    (cfg : PairConfig) (cp : ℚ) (h : env.prices p = some cp) :
    ((createGridOrders env st p cfg).state.pairs p).exp
      = some
        (((createGridOrders env st p cfg).reqs.filter
            (fun q => q.side == "buy" && env.accepts q)).length,
         ((createGridOrders env st p cfg).reqs.filter
            (fun q => q.side == "sell" && env.accepts q)).length)
    ∧ ((createGridOrders env st p cfg).state.pairs p).center = some cp := by
  have hb := createSideOrders_spec env st p "buy" cfg cp (gridSideCounts env st p cfg cp).1
  have hs := createSideOrders_spec env st p "sell" cfg cp (gridSideCounts env st p cfg cp).2
  have hfa := filter_sides_append env
    (createSideOrders env st p "buy" cfg cp (gridSideCounts env st p cfg cp).1).1
    (createSideOrders env st p "sell" cfg cp (gridSideCounts env st p cfg cp).2).1
    (fun r hr => (hb.2 r hr).1) (fun r hr => (hs.2 r hr).1)
  unfold createGridOrders
  rw [h]
  dsimp only
  rw [setKey_same]
  refine ⟨?_, rfl⟩
  rw [hfa.1, hfa.2, hb.1, hs.1]

/-- Witness: with the example grid and an exchange that rejects the
orders at prices 98 and 101, the recorded expected counts are the
confirmed 1 buy and 1 sell, not the intended 2 and 2. -/
theorem create_grid_expected_counts_witness :
    exEnvFail.prices "ETH/USD" = some 100
    ∧ ((createGridOrders exEnvFail exSt "ETH/USD" exCfg).state.pairs "ETH/USD").exp
        = some
          (((createGridOrders exEnvFail exSt "ETH/USD" exCfg).reqs.filter
              (fun q => q.side == "buy" && exEnvFail.accepts q)).length,
           ((createGridOrders exEnvFail exSt "ETH/USD" exCfg).reqs.filter
              (fun q => q.side == "sell" && exEnvFail.accepts q)).length)
    ∧ ((createGridOrders exEnvFail exSt "ETH/USD" exCfg).state.pairs "ETH/USD").center
        = some 100 :=
  ⟨rfl, (create_grid_expected_counts exEnvFail exSt "ETH/USD" exCfg 100 rfl).1,
    (create_grid_expected_counts exEnvFail exSt "ETH/USD" exCfg 100 rfl).2⟩

theorem ratTrunc_eq_floor_of_nonneg (q : ℚ) (h : 0 ≤ q) :
    ratTrunc q = Int.floor q := by
  unfold ratTrunc
  rw [if_neg (not_lt.mpr h)]

theorem flatten_singletons {α β : Type} (g : β → α) (l : List β) :
    (l.map (fun i => [g i])).flatten = l.map g := by
  induction l with
  | nil => simp
  | cons x t ih => simp [ih]

theorem placeRun_reqs_all_validated (env : Env) (p side : String) (v cp : ℚ)
    (cfg : PairConfig) (base n : ℕ)
    (h : ∀ i, i < n → ¬ comparisonUnitValue env p (pyRound v cfg.volume_precision)
          (pyRound (levelPrice side cp cfg base i) cfg.precision)
          < cfg.min_order_size) :
    (placeRun env p side v cp cfg base n).1
      = (List.range n).map (fun i => AddOrderRequest.mk cfg.kraken_pair side
          (pyRound (levelPrice side cp cfg base i) cfg.precision)
          (pyRound v cfg.volume_precision)) := by
  rw [placeRun_eq]
  dsimp only
  have e : ∀ i ∈ List.range n,
      (placeLimitOrder env p side v (levelPrice side cp cfg base i) cfg).reqs
        = [AddOrderRequest.mk cfg.kraken_pair side
            (pyRound (levelPrice side cp cfg base i) cfg.precision)
            (pyRound v cfg.volume_precision)] := by
    intro i hi
    have hv := h i (List.mem_range.mp hi)
    simp [placeLimitOrder, hv]
  rw [List.map_congr_left e, flatten_singletons]

/-- C5: `create_grid_orders` determines each side's order count as
`min(max_orders_per_side, floor(reserved available balance /
per-order minimum))` (where the per-order minimum on the ETH/USD
branch is `price × min_order_size` of quote currency for buys and
`min_order_size` for sells, and on the cross-quoted branch is the USD
minimum converted at the effective BTC/USD price), clamps it to at
least 0 through `Int.toNat` before running the loop, places level-`i`
buys at `currentPrice × (1 − i × interval/100)` and level-`i` sells at
`currentPrice × (1 + i × interval/100)` (each rounded to the
configured price precision in the submitted request), with the buy
ladder strictly decreasing and the sell ladder strictly increasing;
and on the end-to-end example (max 3, min-order 1, interval 1 %, price
100, balance supporting 2 per side) it produces buy levels `[99, 98]`,
sell levels `[101, 102]` and expected counts `{buy: 2, sell: 2}`. -/
theorem create_grid_structure :
    (∀ (env : Env) (st : BotState) (cfg : PairConfig) (cp : ℚ),
      0 < cp → 0 < cfg.min_order_size →
      0 ≤ readBalance st cfg.base_asset → 0 ≤ readBalance st cfg.quote_asset →
      gridSideCounts env st "ETH/USD" cfg cp
        = (min (cfg.max_orders_per_side : ℤ)
            (Int.floor (readBalance st cfg.base_asset * (95/100)
              / (cp * cfg.min_order_size))),
           min (cfg.max_orders_per_side : ℤ)
            (Int.floor (readBalance st cfg.quote_asset * (95/100)
              / cfg.min_order_size))))
    ∧ (∀ (env : Env) (st : BotState) (p : String) (cfg : PairConfig) (cp : ℚ),
      p ≠ "ETH/USD" → 0 < cp → 0 < cfg.min_order_size →
      0 < effBtcUsdCalc env →
      0 ≤ readBalance st cfg.base_asset → 0 ≤ readBalance st cfg.quote_asset →
      gridSideCounts env st p cfg cp
        = (min (cfg.max_orders_per_side : ℤ)
            (Int.floor (readBalance st cfg.base_asset * (95/100)
              / (cfg.min_order_size / effBtcUsdCalc env))),
           min (cfg.max_orders_per_side : ℤ)
            (Int.floor (readBalance st cfg.quote_asset * (95/100)
              / (cfg.min_order_size / (cp * effBtcUsdCalc env))))))
    ∧ (∀ (env : Env) (st : BotState) (p side : String) (cfg : PairConfig)
        (cp v : ℚ) (count : ℤ), 0 < count →
      calculateOrderVolume env st p side cfg cp count.toNat = some v →
      (∀ i, i < count.toNat →
        ¬ comparisonUnitValue env p (pyRound v cfg.volume_precision)
            (pyRound (levelPrice side cp cfg 0 i) cfg.precision)
            < cfg.min_order_size) →
      (createSideOrders env st p side cfg cp count).1
        = (List.range count.toNat).map (fun i => AddOrderRequest.mk
            cfg.kraken_pair side
            (pyRound (levelPrice side cp cfg 0 i) cfg.precision)
            (pyRound v cfg.volume_precision)))
    ∧ (∀ (cfg : PairConfig) (cp : ℚ) (i j : ℕ), 0 < cp →
        0 < cfg.grid_interval → i < j →
        levelPrice "buy" cp cfg 0 j < levelPrice "buy" cp cfg 0 i
        ∧ levelPrice "sell" cp cfg 0 i < levelPrice "sell" cp cfg 0 j)
    ∧ ((createGridOrders exEnv exSt "ETH/USD" exCfg).reqs.map
          (fun r => (r.side, r.price))
        = [("buy", 99), ("buy", 98), ("sell", 101), ("sell", 102)]
      ∧ ((createGridOrders exEnv exSt "ETH/USD" exCfg).state.pairs "ETH/USD").exp
        = some (2, 2)) := by
  refine ⟨?_, ?_, ?_, ?_, ?_⟩
  · intro env st cfg cp hcp hmin hB hQ
    have h1 : (0:ℚ) < cp * cfg.min_order_size := by positivity
    have e1 : ratTrunc (readBalance st cfg.base_asset * (95/100)
        / (cp * cfg.min_order_size))
        = Int.floor (readBalance st cfg.base_asset * (95/100)
            / (cp * cfg.min_order_size)) :=
      ratTrunc_eq_floor_of_nonneg _ (by positivity)
    have e2 : ratTrunc (readBalance st cfg.quote_asset * (95/100)
        / cfg.min_order_size)
        = Int.floor (readBalance st cfg.quote_asset * (95/100)
            / cfg.min_order_size) :=
      ratTrunc_eq_floor_of_nonneg _ (by positivity)
    simp [gridSideCounts, h1, hmin, e1, e2]
  · intro env st p cfg cp hp hcp hmin hbu hB hQ
    have h1 : (0:ℚ) < cp * effBtcUsdCalc env := by positivity
    have h2 : (0:ℚ) < cfg.min_order_size / (cp * effBtcUsdCalc env) := by positivity
    have h3 : (0:ℚ) < cfg.min_order_size / effBtcUsdCalc env := by positivity
    have e1 : ratTrunc (readBalance st cfg.base_asset * (95/100)
        / (cfg.min_order_size / effBtcUsdCalc env))
        = Int.floor (readBalance st cfg.base_asset * (95/100)
            / (cfg.min_order_size / effBtcUsdCalc env)) :=
      ratTrunc_eq_floor_of_nonneg _ (by positivity)
    have e2 : ratTrunc (readBalance st cfg.quote_asset * (95/100)
        / (cfg.min_order_size / (cp * effBtcUsdCalc env)))
        = Int.floor (readBalance st cfg.quote_asset * (95/100)
            / (cfg.min_order_size / (cp * effBtcUsdCalc env))) :=
      ratTrunc_eq_floor_of_nonneg _ (by positivity)
    simp [gridSideCounts, hp, h1, h2, h3, hbu, e1, e2]
  · intro env st p side cfg cp v count hc hv hval
    unfold createSideOrders
    rw [if_pos hc, hv]
    exact placeRun_reqs_all_validated env p side v cp cfg 0 count.toNat hval
  · intro cfg cp i j hcp hg hij
    have hijq : (i:ℚ) < j := by exact_mod_cast hij
    have h1 : cfg.grid_interval / 100 * ((0:ℕ) + (i:ℚ) + 1)
        < cfg.grid_interval / 100 * ((0:ℕ) + (j:ℚ) + 1) := by
      apply mul_lt_mul_of_pos_left _ (by positivity)
      push_cast
      linarith
    constructor
    · unfold levelPrice
      simp only [if_pos rfl]
      exact mul_lt_mul_of_pos_left (by linarith) hcp
    · unfold levelPrice
      rw [if_neg (by decide), if_neg (by decide)]
      exact mul_lt_mul_of_pos_left (by linarith) hcp
  · have sZX : ¬(("ZUSD":String) = "XETH") := by decide
    have sSB : ¬(("sell":String) = "buy") := by decide
    have hcnt : gridSideCounts exEnv exSt "ETH/USD" exCfg 100 = (2, 2) := by
      norm_num [gridSideCounts, readBalance, lookupD, exSt, exCfg, ratTrunc, sZX]
    have hvb : calculateOrderVolume exEnv exSt "ETH/USD" "buy" exCfg 100 2
        = some (19/16) := by
      norm_num [calculateOrderVolume, readBalance, lookupD, exSt, exCfg, sZX, sSB]
    have hvs : calculateOrderVolume exEnv exSt "ETH/USD" "sell" exCfg 100 2
        = some (19/16) := by
      norm_num [calculateOrderVolume, readBalance, lookupD, exSt, exCfg, sZX, sSB]
    have hp0 : placeLimitOrder exEnv "ETH/USD" "buy" (19/16)
        (levelPrice "buy" 100 exCfg 0 0) exCfg
        = { ok := true, reqs := [AddOrderRequest.mk "XETHZUSD" "buy" 99 (19/16)] } := by
      norm_num [placeLimitOrder, comparisonUnitValue, levelPrice, pyRound,
        roundHalfEven, exCfg, exEnv, sSB, -Int.self_sub_floor]
    have hp1 : placeLimitOrder exEnv "ETH/USD" "buy" (19/16)
        (levelPrice "buy" 100 exCfg 0 1) exCfg
        = { ok := true, reqs := [AddOrderRequest.mk "XETHZUSD" "buy" 98 (19/16)] } := by
      norm_num [placeLimitOrder, comparisonUnitValue, levelPrice, pyRound,
        roundHalfEven, exCfg, exEnv, sSB, -Int.self_sub_floor]
    have hq0 : placeLimitOrder exEnv "ETH/USD" "sell" (19/16)
        (levelPrice "sell" 100 exCfg 0 0) exCfg
        = { ok := true, reqs := [AddOrderRequest.mk "XETHZUSD" "sell" 101 (19/16)] } := by
      norm_num [placeLimitOrder, comparisonUnitValue, levelPrice, pyRound,
        roundHalfEven, exCfg, exEnv, sSB, -Int.self_sub_floor]
    have hq1 : placeLimitOrder exEnv "ETH/USD" "sell" (19/16)
        (levelPrice "sell" 100 exCfg 0 1) exCfg
        = { ok := true, reqs := [AddOrderRequest.mk "XETHZUSD" "sell" 102 (19/16)] } := by
      norm_num [placeLimitOrder, comparisonUnitValue, levelPrice, pyRound,
        roundHalfEven, exCfg, exEnv, sSB, -Int.self_sub_floor]
    have hrb : placeRun exEnv "ETH/USD" "buy" (19/16) 100 exCfg 0 2
        = ([AddOrderRequest.mk "XETHZUSD" "buy" 99 (19/16),
            AddOrderRequest.mk "XETHZUSD" "buy" 98 (19/16)], 2) := by
      rw [placeRun_eq, show List.range 2 = [0, 1] from by decide]
      simp [hp0, hp1]
    have hrs : placeRun exEnv "ETH/USD" "sell" (19/16) 100 exCfg 0 2
        = ([AddOrderRequest.mk "XETHZUSD" "sell" 101 (19/16),
            AddOrderRequest.mk "XETHZUSD" "sell" 102 (19/16)], 2) := by
      rw [placeRun_eq, show List.range 2 = [0, 1] from by decide]
      simp [hq0, hq1]
    have hbs : createSideOrders exEnv exSt "ETH/USD" "buy" exCfg 100 2
        = ([AddOrderRequest.mk "XETHZUSD" "buy" 99 (19/16),
            AddOrderRequest.mk "XETHZUSD" "buy" 98 (19/16)], 2) := by
      unfold createSideOrders
      rw [if_pos (by norm_num : (0:ℤ) < 2)]
      rw [show ((2:ℤ)).toNat = 2 from rfl, hvb]
      exact hrb
    have hss : createSideOrders exEnv exSt "ETH/USD" "sell" exCfg 100 2
        = ([AddOrderRequest.mk "XETHZUSD" "sell" 101 (19/16),
            AddOrderRequest.mk "XETHZUSD" "sell" 102 (19/16)], 2) := by
      unfold createSideOrders
      rw [if_pos (by norm_num : (0:ℤ) < 2)]
      rw [show ((2:ℤ)).toNat = 2 from rfl, hvs]
      exact hrs
    constructor
    · show (List.map (fun r => (r.side, r.price))
        (createGridOrders exEnv exSt "ETH/USD" exCfg).reqs) = _
      unfold createGridOrders
      rw [show exEnv.prices "ETH/USD" = some 100 from rfl]
      dsimp only
      rw [hcnt]
      dsimp only
      rw [hbs, hss]
      rfl
    · unfold createGridOrders
      rw [show exEnv.prices "ETH/USD" = some 100 from rfl]
      dsimp only
      rw [hcnt]
      dsimp only
      rw [hbs, hss, setKey_same]

/-- Witness: the affordable-count formula instantiated on the
end-to-end example state gives `min 3 ⌊237.5/100⌋ = 2` per side. -/
theorem create_grid_structure_witness :
    ((0:ℚ) < 100 ∧ (0:ℚ) < exCfg.min_order_size
      ∧ (0:ℚ) ≤ readBalance exSt exCfg.base_asset
      ∧ (0:ℚ) ≤ readBalance exSt exCfg.quote_asset)
    ∧ gridSideCounts exEnv exSt "ETH/USD" exCfg 100
        = (min (exCfg.max_orders_per_side : ℤ)
            (Int.floor (readBalance exSt exCfg.base_asset * (95/100)
              / ((100:ℚ) * exCfg.min_order_size))),
           min (exCfg.max_orders_per_side : ℤ)
            (Int.floor (readBalance exSt exCfg.quote_asset * (95/100)
              / exCfg.min_order_size))) := by
  have sZX : ¬(("ZUSD":String) = "XETH") := by decide
  have h1 : (0:ℚ) < 100 := by norm_num
  have h2 : (0:ℚ) < exCfg.min_order_size := by norm_num [exCfg]
  have h3 : (0:ℚ) ≤ readBalance exSt exCfg.base_asset := by
    norm_num [readBalance, lookupD, exSt, exCfg]
  have h4 : (0:ℚ) ≤ readBalance exSt exCfg.quote_asset := by
    norm_num [readBalance, lookupD, exSt, exCfg, sZX]
  exact ⟨⟨h1, h2, h3, h4⟩, create_grid_structure.1 exEnv exSt exCfg 100 h1 h2 h3 h4⟩

/-! ## Fill-inference lemmas -/

theorem foldl_id {α β : Type} (l : List β) (init : α) :
    l.foldl (fun acc _ => acc) init = init := by
  induction l generalizing init with
  | nil => rfl
  | cons x t ih => simp [ih]

theorem fillSell_nofire (env : Env) (st : BotState) (p : String)
    (cfg : PairConfig) (cp : ℚ) (cb cs eb es : ℕ) (h : ¬(cs < es)) :
    fillSell env st p cfg cp cb cs eb es = (st, []) := by
  unfold fillSell
  rw [if_neg h]

theorem fillSell_stuck_none (env : Env) (st : BotState) (p : String)
    (cfg : PairConfig) (cp : ℚ) (cb cs eb es : ℕ) (hlt : cs < es)
    (hv : calculateOrderVolume env (refreshBalances env st) p "buy" cfg cp 1
        = none) :
    fillSell env st p cfg cp cb cs eb es
      = (writeExp (refreshBalances env st) p (eb, cs), []) := by
  unfold fillSell
  rw [if_pos hlt]
  simp only [hv]
  norm_num [foldl_id]

theorem fillSell_stuck_zero (env : Env) (st : BotState) (p : String)
    (cfg : PairConfig) (cp : ℚ) (cb cs eb es : ℕ) (hlt : cs < es)
    (hv : calculateOrderVolume env (refreshBalances env st) p "buy" cfg cp 1
        = some 0) :
    fillSell env st p cfg cp cb cs eb es
      = (writeExp (refreshBalances env st) p (eb, cs), []) := by
  unfold fillSell
  rw [if_pos hlt]
  simp only [hv]
  norm_num [foldl_id]

theorem fillSell_fire_some (env : Env) (st : BotState) (p : String)
    (cfg : PairConfig) (cp : ℚ) (cb cs eb es : ℕ) (v : ℚ) (hlt : cs < es)
    (hv : calculateOrderVolume env (refreshBalances env st) p "buy" cfg cp 1
        = some v) (hv0 : ¬(v = 0)) :
    fillSell env st p cfg cp cb cs eb es
      = (if 0 < (placeRun env p "buy" v cp cfg cb (es - cs)).2
         then writeExp (refreshBalances env st) p (refreshedCounts env p)
         else writeExp (refreshBalances env st) p (eb, cs),
         (placeRun env p "buy" v cp cfg cb (es - cs)).1) := by
  unfold fillSell
  rw [if_pos hlt]
  simp only [hv, hv0, if_false]
  have hpr : (List.range (es - cs)).foldl
      (fun acc (i : ℕ) =>
        (acc.1 ++ (placeLimitOrder env p "buy" v
            (cp * (1 - cfg.grid_interval / 100 * (cb + i + 1))) cfg).reqs,
          acc.2 + if (placeLimitOrder env p "buy" v
            (cp * (1 - cfg.grid_interval / 100 * (cb + i + 1))) cfg).ok
            then 1 else 0))
      ([], 0) = placeRun env p "buy" v cp cfg cb (es - cs) := rfl
  rw [hpr]
  rcases h2 : placeRun env p "buy" v cp cfg cb (es - cs) with ⟨R, P⟩
  by_cases hp : 0 < P
  · simp [hp]
  · simp [hp]

theorem fillBuy_nofire (env : Env) (st : BotState) (p : String)
    (cfg : PairConfig) (cp : ℚ) (cb cs eb es : ℕ) (h : ¬(cb < eb)) :
    fillBuy env st p cfg cp cb cs eb es = (st, []) := by
  unfold fillBuy
  rw [if_neg h]

theorem fillBuy_stuck_none (env : Env) (st : BotState) (p : String)
    (cfg : PairConfig) (cp : ℚ) (cb cs eb es : ℕ) (hlt : cb < eb)
    (hv : calculateOrderVolume env (refreshBalances env st) p "sell" cfg cp 1
        = none) :
    fillBuy env st p cfg cp cb cs eb es
      = (writeExp (refreshBalances env st) p (cb, es), []) := by
  unfold fillBuy
  rw [if_pos hlt]
  simp only [hv]
  norm_num [foldl_id]

theorem fillBuy_stuck_zero (env : Env) (st : BotState) (p : String)
    (cfg : PairConfig) (cp : ℚ) (cb cs eb es : ℕ) (hlt : cb < eb)
    (hv : calculateOrderVolume env (refreshBalances env st) p "sell" cfg cp 1
        = some 0) :
    fillBuy env st p cfg cp cb cs eb es
      = (writeExp (refreshBalances env st) p (cb, es), []) := by
  unfold fillBuy
  rw [if_pos hlt]
  simp only [hv]
  norm_num [foldl_id]

theorem fillBuy_fire_some (env : Env) (st : BotState) (p : String)
    (cfg : PairConfig) (cp : ℚ) (cb cs eb es : ℕ) (v : ℚ) (hlt : cb < eb)
    (hv : calculateOrderVolume env (refreshBalances env st) p "sell" cfg cp 1
        = some v) (hv0 : ¬(v = 0)) :
    fillBuy env st p cfg cp cb cs eb es
      = (if 0 < (placeRun env p "sell" v cp cfg cs (eb - cb)).2
         then writeExp (refreshBalances env st) p (refreshedCounts env p)
         else writeExp (refreshBalances env st) p (cb, es),
         (placeRun env p "sell" v cp cfg cs (eb - cb)).1) := by
  unfold fillBuy
  rw [if_pos hlt]
  simp only [hv, hv0, if_false]
  have hpr : (List.range (eb - cb)).foldl
      (fun acc (i : ℕ) =>
        (acc.1 ++ (placeLimitOrder env p "sell" v
            (cp * (1 + cfg.grid_interval / 100 * (cs + i + 1))) cfg).reqs,
          acc.2 + if (placeLimitOrder env p "sell" v
            (cp * (1 + cfg.grid_interval / 100 * (cs + i + 1))) cfg).ok
            then 1 else 0))
      ([], 0) = placeRun env p "sell" v cp cfg cs (eb - cb) := rfl
  rw [hpr]
  rcases h2 : placeRun env p "sell" v cp cfg cs (eb - cb) with ⟨R, P⟩
  by_cases hp : 0 < P
  · simp [hp]
  · simp [hp]

theorem placeRun_all_ok (env : Env) (p side : String) (v cp : ℚ)
    (cfg : PairConfig) (base n : ℕ)
    (h : ∀ i, i < n →
      (placeLimitOrder env p side v (levelPrice side cp cfg base i) cfg).ok
        = true) :
    (placeRun env p side v cp cfg base n).1
      = (List.range n).map (fun i => AddOrderRequest.mk cfg.kraken_pair side
          (pyRound (levelPrice side cp cfg base i) cfg.precision)
          (pyRound v cfg.volume_precision))
    ∧ (placeRun env p side v cp cfg base n).2 = n := by
  constructor
  · apply placeRun_reqs_all_validated
    intro i hi hlt
    have hok := h i hi
    rw [show placeLimitOrder env p side v (levelPrice side cp cfg base i) cfg
        = { ok := false, reqs := [] } from by simp [placeLimitOrder, hlt]] at hok
    simp at hok
  · rw [placeRun_eq]
    dsimp only
    have e : ∀ i ∈ List.range n,
        (if (placeLimitOrder env p side v (levelPrice side cp cfg base i) cfg).ok
         then 1 else 0) = 1 := by
      intro i hi
      rw [h i (List.mem_range.mp hi)]
      rfl
    rw [List.map_congr_left e]
    simp

/-! ## The concrete fill-inference example (C1) -/

theorem c1_fresh : freshAvailList c1env = [("ZUSD", 49813/5), ("XETH", 48/5)] := by
  have hE : strContains (pyUpper "ETHUSD") "ETH" = true := by decide
  have hU : strContains (pyUpper "ETHUSD") "USD" = true := by decide
  have sSB : ¬(("sell":String) = "buy") := by decide
  have sZX : ¬(("ZUSD":String) = "XETH") := by decide
  have sXZ : ¬(("XETH":String) = "ZUSD") := by decide
  norm_num [freshAvailList, c1env, fourByFour, lockedFunds_eq_sum,
    lockContribution, hE, hU, sSB, sZX, sXZ]

theorem c1_refresh_state :
    refreshBalances c1env c1st
      = ⟨c1st.pairs, [("ZUSD", 10000), ("XETH", 10)],
          [("ZUSD", 49813/5), ("XETH", 48/5)]⟩ := by
  unfold refreshBalances
  rw [c1_fresh]
  norm_num [c1env]

theorem c1_volume :
    calculateOrderVolume c1env (refreshBalances c1env c1st) "ETH/USD" "buy"
      ethUsdConfig 100 1 = some (946447/10000) := by
  have sZX : ¬(("ZUSD":String) = "XETH") := by decide
  have sXZ : ¬(("XETH":String) = "ZUSD") := by decide
  rw [c1_refresh_state]
  norm_num [calculateOrderVolume, readBalance, lookupD, ethUsdConfig, sZX, sXZ,
    List.cons_ne_nil]

theorem c1_place0 :
    placeLimitOrder c1env "ETH/USD" "buy" (946447/10000)
      (levelPrice "buy" 100 ethUsdConfig 4 0) ethUsdConfig
    = { ok := true,
        reqs := [AddOrderRequest.mk "XETHZUSD" "buy" (185/2) (946447/10000)] } := by
  norm_num [placeLimitOrder, comparisonUnitValue, levelPrice, pyRound,
    roundHalfEven, ethUsdConfig, c1env, -Int.self_sub_floor]

theorem c1_place1 :
    placeLimitOrder c1env "ETH/USD" "buy" (946447/10000)
      (levelPrice "buy" 100 ethUsdConfig 4 1) ethUsdConfig
    = { ok := true,
        reqs := [AddOrderRequest.mk "XETHZUSD" "buy" 91 (946447/10000)] } := by
  norm_num [placeLimitOrder, comparisonUnitValue, levelPrice, pyRound,
    roundHalfEven, ethUsdConfig, c1env, -Int.self_sub_floor]

theorem c1_ok : ∀ i, i < 2 →
    (placeLimitOrder c1env "ETH/USD" "buy" (946447/10000)
      (levelPrice "buy" 100 ethUsdConfig 4 i) ethUsdConfig).ok = true := by
  intro i hi
  interval_cases i
  · rw [c1_place0]
  · rw [c1_place1]

theorem c1_placeRun :
    placeRun c1env "ETH/USD" "buy" (946447/10000) 100 ethUsdConfig 4 2
    = ([AddOrderRequest.mk "XETHZUSD" "buy" (185/2) (946447/10000),
        AddOrderRequest.mk "XETHZUSD" "buy" 91 (946447/10000)], 2) := by
  rw [placeRun_eq, show List.range 2 = [0, 1] from by decide]
  simp [c1_place0, c1_place1]

theorem c1_refreshed : refreshedCounts c1env "ETH/USD" = (5, 4) := by decide

/-- C1: fill inference in a reconciliation tick.  When the observed
sell count is strictly below the expected sell count, the engine
refreshes balances and — provided the per-order volume computation
succeeds and every replacement passes validation — issues exactly
`expected.sell − sellCount` replacement buy orders at grid levels
`buyCount + 1, buyCount + 2, ...` below the current price (one level
below the existing lowest buy onwards), then re-fetches open orders and
sets the pair's expected counts to the freshly observed counts of that
re-fetch; symmetrically, observed buys below expected trigger that many
replacement sells above the existing highest sell.  On the concrete
example (expected `{buy: 4, sell: 6}`, observed `{buy: 4, sell: 4}`,
price 100) the tick places exactly 2 replacement buys, at 92.5 and 91,
and no sells, and the new expected counts are the re-fetched `(5, 4)`
rather than the arithmetic increment `(6, 4)`. -/
theorem fill_inference_replacement :
    (∀ (env : Env) (st : BotState) (p : String) (cfg : PairConfig)
        (cp v : ℚ) (cb cs eb es : ℕ),
      cs < es →
      calculateOrderVolume env (refreshBalances env st) p "buy" cfg cp 1
        = some v →
      ¬(v = 0) →
      (∀ i, i < es - cs →
        (placeLimitOrder env p "buy" v (levelPrice "buy" cp cfg cb i) cfg).ok
          = true) →
      (fillSell env st p cfg cp cb cs eb es).2
        = (List.range (es - cs)).map (fun i => AddOrderRequest.mk
            cfg.kraken_pair "buy"
            (pyRound (levelPrice "buy" cp cfg cb i) cfg.precision)
            (pyRound v cfg.volume_precision))
      ∧ (fillSell env st p cfg cp cb cs eb es).2.length = es - cs
      ∧ (fillSell env st p cfg cp cb cs eb es).1
          = writeExp (refreshBalances env st) p (refreshedCounts env p))
    ∧ (∀ (env : Env) (st : BotState) (p : String) (cfg : PairConfig)
        (cp v : ℚ) (cb cs eb es : ℕ),
      cb < eb →
      calculateOrderVolume env (refreshBalances env st) p "sell" cfg cp 1
        = some v →
      ¬(v = 0) →
      (∀ i, i < eb - cb →
        (placeLimitOrder env p "sell" v (levelPrice "sell" cp cfg cs i) cfg).ok
          = true) →
      (fillBuy env st p cfg cp cb cs eb es).2
        = (List.range (eb - cb)).map (fun i => AddOrderRequest.mk
            cfg.kraken_pair "sell"
            (pyRound (levelPrice "sell" cp cfg cs i) cfg.precision)
            (pyRound v cfg.volume_precision))
      ∧ (fillBuy env st p cfg cp cb cs eb es).2.length = eb - cb
      ∧ (fillBuy env st p cfg cp cb cs eb es).1
          = writeExp (refreshBalances env st) p (refreshedCounts env p))
    ∧ ((fillPhase c1env c1st "ETH/USD" ethUsdConfig 100 4 4 4 6).2
        = [AddOrderRequest.mk "XETHZUSD" "buy" (185/2) (946447/10000),
           AddOrderRequest.mk "XETHZUSD" "buy" 91 (946447/10000)]
      ∧ ((fillPhase c1env c1st "ETH/USD" ethUsdConfig 100 4 4 4 6).1.pairs
          "ETH/USD").exp = some (refreshedCounts c1env "ETH/USD")
      ∧ refreshedCounts c1env "ETH/USD" = (5, 4)) := by
  have ruleS : ∀ (env : Env) (st : BotState) (p : String) (cfg : PairConfig)
      (cp v : ℚ) (cb cs eb es : ℕ),
      cs < es →
      calculateOrderVolume env (refreshBalances env st) p "buy" cfg cp 1
        = some v →
      ¬(v = 0) →
      (∀ i, i < es - cs →
        (placeLimitOrder env p "buy" v (levelPrice "buy" cp cfg cb i) cfg).ok
          = true) →
      (fillSell env st p cfg cp cb cs eb es).2
        = (List.range (es - cs)).map (fun i => AddOrderRequest.mk
            cfg.kraken_pair "buy"
            (pyRound (levelPrice "buy" cp cfg cb i) cfg.precision)
            (pyRound v cfg.volume_precision))
      ∧ (fillSell env st p cfg cp cb cs eb es).2.length = es - cs
      ∧ (fillSell env st p cfg cp cb cs eb es).1
          = writeExp (refreshBalances env st) p (refreshedCounts env p) := by
    intro env st p cfg cp v cb cs eb es hlt hv hv0 hok
    have hall := placeRun_all_ok env p "buy" v cp cfg cb (es - cs) hok
    have hpos : 0 < (placeRun env p "buy" v cp cfg cb (es - cs)).2 := by
      rw [hall.2]
      omega
    rw [fillSell_fire_some env st p cfg cp cb cs eb es v hlt hv hv0,
      if_pos hpos]
    dsimp only
    refine ⟨hall.1, ?_, rfl⟩
    rw [hall.1]
    simp
  have ruleB : ∀ (env : Env) (st : BotState) (p : String) (cfg : PairConfig)
      (cp v : ℚ) (cb cs eb es : ℕ),
      cb < eb →
      calculateOrderVolume env (refreshBalances env st) p "sell" cfg cp 1
        = some v →
      ¬(v = 0) →
      (∀ i, i < eb - cb →
        (placeLimitOrder env p "sell" v (levelPrice "sell" cp cfg cs i) cfg).ok
          = true) →
      (fillBuy env st p cfg cp cb cs eb es).2
        = (List.range (eb - cb)).map (fun i => AddOrderRequest.mk
            cfg.kraken_pair "sell"
            (pyRound (levelPrice "sell" cp cfg cs i) cfg.precision)
            (pyRound v cfg.volume_precision))
      ∧ (fillBuy env st p cfg cp cb cs eb es).2.length = eb - cb
      ∧ (fillBuy env st p cfg cp cb cs eb es).1
          = writeExp (refreshBalances env st) p (refreshedCounts env p) := by
    intro env st p cfg cp v cb cs eb es hlt hv hv0 hok
    have hall := placeRun_all_ok env p "sell" v cp cfg cs (eb - cb) hok
    have hpos : 0 < (placeRun env p "sell" v cp cfg cs (eb - cb)).2 := by
      rw [hall.2]
      omega
    rw [fillBuy_fire_some env st p cfg cp cb cs eb es v hlt hv hv0,
      if_pos hpos]
    dsimp only
    refine ⟨hall.1, ?_, rfl⟩
    rw [hall.1]
    simp
  have hfs : fillSell c1env c1st "ETH/USD" ethUsdConfig 100 4 4 4 6
      = (writeExp (refreshBalances c1env c1st) "ETH/USD"
          (refreshedCounts c1env "ETH/USD"),
         [AddOrderRequest.mk "XETHZUSD" "buy" (185/2) (946447/10000),
          AddOrderRequest.mk "XETHZUSD" "buy" 91 (946447/10000)]) := by
    rw [fillSell_fire_some c1env c1st "ETH/USD" ethUsdConfig 100 4 4 4 6
      (946447/10000) (by norm_num) c1_volume (by norm_num)]
    rw [show (6:ℕ) - 4 = 2 from rfl, c1_placeRun]
    norm_num
  have hfb := fillBuy_nofire c1env
      (writeExp (refreshBalances c1env c1st) "ETH/USD"
        (refreshedCounts c1env "ETH/USD"))
      "ETH/USD" ethUsdConfig 100 4 4 4 6 (by omega)
  have hfp : fillPhase c1env c1st "ETH/USD" ethUsdConfig 100 4 4 4 6
      = (writeExp (refreshBalances c1env c1st) "ETH/USD"
          (refreshedCounts c1env "ETH/USD"),
         [AddOrderRequest.mk "XETHZUSD" "buy" (185/2) (946447/10000),
          AddOrderRequest.mk "XETHZUSD" "buy" 91 (946447/10000)]) := by
    simp only [fillPhase]
    rw [hfs]
    dsimp only
    rw [hfb]
    simp
  refine ⟨ruleS, ruleB, ?_, ?_, c1_refreshed⟩
  · rw [hfp]
  · rw [hfp]
    simp [writeExp, writePair, setKey_same]

/-- Witness for C1: the sell-fill rule applied to the concrete example
(expected sells 6, observed 4, volume computation succeeding) yields
the refreshed-counts write. -/
theorem fill_inference_replacement_witness :
    ((4:ℕ) < 6
      ∧ calculateOrderVolume c1env (refreshBalances c1env c1st) "ETH/USD"
          "buy" ethUsdConfig 100 1 = some (946447/10000))
    ∧ (fillSell c1env c1st "ETH/USD" ethUsdConfig 100 4 4 4 6).1
        = writeExp (refreshBalances c1env c1st) "ETH/USD"
            (refreshedCounts c1env "ETH/USD") := by
  refine ⟨⟨by norm_num, c1_volume⟩, ?_⟩
  exact (fill_inference_replacement.1 c1env c1st "ETH/USD" ethUsdConfig 100
    (946447/10000) 4 4 4 6 (by norm_num) c1_volume (by norm_num)
    (by intro i hi; exact c1_ok i (by omega))).2.2

/-! ## Fill-failure resets (C10) -/

theorem fillSell_fail (env : Env) (st : BotState) (p : String)
    (cfg : PairConfig) (cp : ℚ) (cb cs eb es : ℕ) (hlt : cs < es)
    (h : ∀ v, calculateOrderVolume env (refreshBalances env st) p "buy" cfg cp 1
        = some v → ¬(v = 0) →
        (placeRun env p "buy" v cp cfg cb (es - cs)).2 = 0) :
    (fillSell env st p cfg cp cb cs eb es).1
      = writeExp (refreshBalances env st) p (eb, cs) := by
  rcases hcase : calculateOrderVolume env (refreshBalances env st) p "buy"
      cfg cp 1 with _ | v
  · rw [fillSell_stuck_none env st p cfg cp cb cs eb es hlt hcase]
  · by_cases hv0 : v = 0
    · subst hv0
      rw [fillSell_stuck_zero env st p cfg cp cb cs eb es hlt hcase]
    · rw [fillSell_fire_some env st p cfg cp cb cs eb es v hlt hcase hv0]
      have hz := h v hcase hv0
      simp [hz]

theorem fillBuy_fail (env : Env) (st : BotState) (p : String)
    (cfg : PairConfig) (cp : ℚ) (cb cs eb es : ℕ) (hlt : cb < eb)
    (h : ∀ v, calculateOrderVolume env (refreshBalances env st) p "sell" cfg cp 1
        = some v → ¬(v = 0) →
        (placeRun env p "sell" v cp cfg cs (eb - cb)).2 = 0) :
    (fillBuy env st p cfg cp cb cs eb es).1
      = writeExp (refreshBalances env st) p (cb, es) := by
  rcases hcase : calculateOrderVolume env (refreshBalances env st) p "sell"
      cfg cp 1 with _ | v
  · rw [fillBuy_stuck_none env st p cfg cp cb cs eb es hlt hcase]
  · by_cases hv0 : v = 0
    · subst hv0
      rw [fillBuy_stuck_zero env st p cfg cp cb cs eb es hlt hcase]
    · rw [fillBuy_fire_some env st p cfg cp cb cs eb es v hlt hcase hv0]
      have hz := h v hcase hv0
      simp [hz]

theorem both_volume_none : ∀ (st : BotState) (side : String),
    calculateOrderVolume bothEnv (refreshBalances bothEnv st) "ETH/USD" side
      ethUsdConfig 100 1 = none := by
  intro st side
  have h : refreshBalances bothEnv st
      = { st with balances := [], availableBalances := [] } := rfl
  by_cases hs : side = "buy"
  · subst hs
    norm_num [calculateOrderVolume, h, readBalance, lookupD, ethUsdConfig]
  · norm_num [calculateOrderVolume, h, readBalance, lookupD, ethUsdConfig, hs]

/-- C10 (amended): when a fill is inferred on one side and zero
replacement orders are successfully placed, and the opposite side does
not also infer a fill, the fill phase resets the firing side's
expected count to the observed count and keeps the opposite side's
previous value; and from the resulting record a further fill phase
against unchanged observations fires neither branch, placing nothing
and leaving the state untouched.  (The original claim's symmetric
statement for simultaneous failures on both sides is refuted by
`fill_failure_clobbered_by_other_side`: the later buy-branch write
restores the stale expected sell count.) -/
theorem fill_failure_resets_side :
    (∀ (env : Env) (st : BotState) (p : String) (cfg : PairConfig)
        (cp : ℚ) (cb cs eb es : ℕ),
      cs < es →
      (∀ v, calculateOrderVolume env (refreshBalances env st) p "buy" cfg cp 1
          = some v → ¬(v = 0) →
          (placeRun env p "buy" v cp cfg cb (es - cs)).2 = 0) →
      ¬(cb < eb) →
      ((fillPhase env st p cfg cp cb cs eb es).1.pairs p).exp = some (eb, cs))
    ∧ (∀ (env : Env) (st : BotState) (p : String) (cfg : PairConfig)
        (cp : ℚ) (cb cs eb es : ℕ),
      cb < eb →
      (∀ v, calculateOrderVolume env (refreshBalances env st) p "sell" cfg cp 1
          = some v → ¬(v = 0) →
          (placeRun env p "sell" v cp cfg cs (eb - cb)).2 = 0) →
      ¬(cs < es) →
      ((fillPhase env st p cfg cp cb cs eb es).1.pairs p).exp = some (cb, es))
    ∧ (∀ (env : Env) (st : BotState) (p : String) (cfg : PairConfig)
        (cp : ℚ) (cb cs eb : ℕ),
      ¬(cb < eb) →
      fillPhase env st p cfg cp cb cs eb cs = (st, []))
    ∧ (∀ (env : Env) (st : BotState) (p : String) (cfg : PairConfig)
        (cp : ℚ) (cb cs es : ℕ),
      ¬(cs < es) →
      fillPhase env st p cfg cp cb cs cb es = (st, [])) := by
  refine ⟨?_, ?_, ?_, ?_⟩
  · intro env st p cfg cp cb cs eb es hlt hfail hnb
    have h1 : (fillSell env st p cfg cp cb cs eb es).1
        = writeExp (refreshBalances env st) p (eb, cs) :=
      fillSell_fail env st p cfg cp cb cs eb es hlt hfail
    simp only [fillPhase]
    rw [fillBuy_nofire env ((fillSell env st p cfg cp cb cs eb es).1) p cfg cp
      cb cs eb es hnb]
    dsimp only
    rw [h1]
    simp [writeExp, writePair, setKey_same]
  · intro env st p cfg cp cb cs eb es hlt hfail hns
    simp only [fillPhase]
    rw [fillSell_nofire env st p cfg cp cb cs eb es hns]
    dsimp only
    rw [fillBuy_fail env st p cfg cp cb cs eb es hlt hfail]
    simp [writeExp, writePair, setKey_same]
  · intro env st p cfg cp cb cs eb hnb
    simp only [fillPhase]
    rw [fillSell_nofire env st p cfg cp cb cs eb cs (lt_irrefl cs)]
    dsimp only
    rw [fillBuy_nofire env st p cfg cp cb cs eb cs hnb]
    simp
  · intro env st p cfg cp cb cs es hns
    simp only [fillPhase]
    rw [fillSell_nofire env st p cfg cp cb cs cb es hns]
    dsimp only
    rw [fillBuy_nofire env st p cfg cp cb cs cb es (lt_irrefl cb)]
    simp

/-- Witness for C10: a sell fill inferred on ETH/USD (observed 1,
expected 3) with the volume computation failing on empty balances and
no buy fill inferred (observed 2, expected 2) resets the record to
`(2, 1)`. -/
theorem fill_failure_resets_side_witness :
    ((1:ℕ) < 3 ∧ ¬((2:ℕ) < 2))
    ∧ ((fillPhase bothEnv bothSt "ETH/USD" ethUsdConfig 100 2 1 2 3).1.pairs
        "ETH/USD").exp = some (2, 1) := by
  refine ⟨⟨by decide, by decide⟩, ?_⟩
  exact fill_failure_resets_side.1 bothEnv bothSt "ETH/USD" ethUsdConfig 100
    2 1 2 3 (by decide)
    (fun v hv _ => by rw [both_volume_none bothSt "buy"] at hv; cases hv)
    (by decide)

/-- Counterexample to C10 as stated: with fills inferred on both sides
(observed `{buy: 1, sell: 1}` against expected `{buy: 2, sell: 3}`)
and zero replacements placed on either (empty balances), the sell-side
reset to the observed count is clobbered by the subsequent buy-branch
write, which restores the stale expected sell count 3: the record ends
at `(1, 3)`, not `(1, 1)`.  Consequently the missing sell orders ARE
re-inferred as fills on the next tick from unchanged observations: a
second fill phase rewrites the record to `(1, 1)`. -/
theorem fill_failure_clobbered_by_other_side :
    ((fillPhase bothEnv bothSt "ETH/USD" ethUsdConfig 100 1 1 2 3).1.pairs
        "ETH/USD").exp = some (1, 3)
    ∧ ((fillPhase bothEnv
          (writeExp (refreshBalances bothEnv bothSt) "ETH/USD" (1, 3))
          "ETH/USD" ethUsdConfig 100 1 1 1 3).1.pairs "ETH/USD").exp
        = some (1, 1) := by
  constructor
  · simp only [fillPhase]
    rw [fillSell_stuck_none bothEnv bothSt "ETH/USD" ethUsdConfig 100 1 1 2 3
      (by decide) (both_volume_none bothSt "buy")]
    dsimp only
    rw [fillBuy_stuck_none bothEnv
      (writeExp (refreshBalances bothEnv bothSt) "ETH/USD" (2, 1)) "ETH/USD"
      ethUsdConfig 100 1 1 2 3 (by decide)
      (both_volume_none (writeExp (refreshBalances bothEnv bothSt) "ETH/USD"
        (2, 1)) "sell")]
    simp [writeExp, writePair, setKey_same]
  · simp only [fillPhase]
    rw [fillSell_stuck_none bothEnv
      (writeExp (refreshBalances bothEnv bothSt) "ETH/USD" (1, 3)) "ETH/USD"
      ethUsdConfig 100 1 1 1 3 (by decide)
      (both_volume_none (writeExp (refreshBalances bothEnv bothSt) "ETH/USD"
        (1, 3)) "buy")]
    dsimp only
    rw [fillBuy_nofire bothEnv
      (writeExp (refreshBalances bothEnv (writeExp (refreshBalances bothEnv
        bothSt) "ETH/USD" (1, 3))) "ETH/USD" (1, 1)) "ETH/USD"
      ethUsdConfig 100 1 1 1 3 (by decide)]
    simp [writeExp, writePair, setKey_same]

/-! ## Tick idempotence machinery (C3) -/

theorem setKey_self {α : Type} (f : String → α) (k : String) :
    setKey f k (f k) = f := by
  funext x
  unfold setKey
  by_cases hx : x = k
  · subst hx
    rw [if_pos rfl]
  · rw [if_neg hx]

theorem pairSt_exp_eta (l : PairSt) : ({ l with exp := l.exp } : PairSt) = l :=
  rfl

theorem writeExpOpt_self (st : BotState) (p : String) :
    writeExpOpt st p ((st.pairs p).exp) = st := by
  unfold writeExpOpt writePair
  rw [pairSt_exp_eta, setKey_self]

theorem seedClampVal_observed (env : Env) (p : String) (cfg : PairConfig) :
    seedClampVal env p cfg (some (ordersByPair env.openOrders p))
      = some (ordersByPair env.openOrders p) := by
  rcases hc : ordersByPair env.openOrders p with ⟨cb, cs⟩
  simp [seedClampVal, hc]

theorem seedClamp_noop (env : Env) (st : BotState)
    (h : ∀ p cfg, (p, cfg) ∈ enabledPairs →
      seedClampVal env p cfg ((st.pairs p).exp) = (st.pairs p).exp) :
    seedClampPhase env st = st := by
  have h1 := h "XRP/BTC" xrpBtcConfig (by simp [enabledPairs])
  have h2 := h "ETH/USD" ethUsdConfig (by simp [enabledPairs])
  unfold seedClampPhase
  simp only [enabledPairs, List.foldl_cons, List.foldl_nil]
  rw [h1, writeExpOpt_self, h2, writeExpOpt_self]

theorem processPair_noprice (env : Env) (acc : TickAcc) (p : String)
    (cfg : PairConfig) (h : env.prices p = none) :
    processPair env acc p cfg = acc := by
  unfold processPair
  rw [h]

theorem fillPhase_observed (env : Env) (st : BotState) (p : String)
    (cfg : PairConfig) (cp : ℚ) (cb cs : ℕ) :
    fillPhase env st p cfg cp cb cs cb cs = (st, []) := by
  simp only [fillPhase]
  rw [fillSell_nofire env st p cfg cp cb cs cb cs (lt_irrefl cs)]
  dsimp only
  rw [fillBuy_nofire env st p cfg cp cb cs cb cs (lt_irrefl cb)]
  simp

theorem topUpBuy_noop (env : Env) (st : BotState) (p : String)
    (cfg : PairConfig) (cp : ℚ) (cb ebLoc esLoc : ℕ)
    (hbu : 0 < effBtcUsdCalc env)
    (hb : topUpBuyBound env st p cfg cp ≤ (cb : ℤ)) :
    topUpBuy env st p cfg cp cb ebLoc esLoc = (st, [], ebLoc) := by
  have hM : (if p = "ETH/USD" then cp * cfg.min_order_size
      else if 0 < effBtcUsdCalc env then
        cfg.min_order_size / effBtcUsdCalc env else 0.0001)
      = (if p = "ETH/USD" then cp * cfg.min_order_size
        else cfg.min_order_size / effBtcUsdCalc env) := by
    by_cases hp : p = "ETH/USD" <;> simp [hp, hbu]
  simp only [topUpBuyBound] at hb
  unfold topUpBuy
  by_cases h1 : cb < cfg.min_orders_per_side
  · rw [if_pos h1]
    dsimp only
    rw [hM]
    rw [if_neg (by omega :
      ¬(0 < max 0 (min (min (cfg.max_orders_per_side : ℤ)
        (if 0 < (if p = "ETH/USD" then cp * cfg.min_order_size
            else cfg.min_order_size / effBtcUsdCalc env) then
          ratTrunc (readBalance st cfg.base_asset * (95/100)
            / (if p = "ETH/USD" then cp * cfg.min_order_size
              else cfg.min_order_size / effBtcUsdCalc env))
          else 0) - cb) ((cfg.max_orders_per_side : ℤ) - cb))))]
  · rw [if_neg h1]
    by_cases h2 : cb < cfg.max_orders_per_side
    · rw [if_pos h2]
      dsimp only
      rw [if_neg (by omega :
        ¬(0 < min ((cfg.max_orders_per_side : ℤ) - cb)
          (max 0 ((if 0 < (if p = "ETH/USD" then cp * cfg.min_order_size
              else cfg.min_order_size / effBtcUsdCalc env) then
            ratTrunc (readBalance st cfg.base_asset * (95/100)
              / (if p = "ETH/USD" then cp * cfg.min_order_size
                else cfg.min_order_size / effBtcUsdCalc env))
            else 0) - cb))))]
    · rw [if_neg h2]

theorem topUpSell_noop (env : Env) (st : BotState) (p : String)
    (cfg : PairConfig) (cp : ℚ) (cs ebLoc esLoc : ℕ)
    (hxr : 0 < cp * effBtcUsdCalc env)
    (hs : topUpSellBound env st p cfg cp ≤ (cs : ℤ)) :
    topUpSell env st p cfg cp cs ebLoc esLoc = (st, []) := by
  have hM : (if p = "ETH/USD" then cfg.min_order_size
      else if 0 < cp * effBtcUsdCalc env then
        cfg.min_order_size / (cp * effBtcUsdCalc env) else 5)
      = (if p = "ETH/USD" then cfg.min_order_size
        else cfg.min_order_size / (cp * effBtcUsdCalc env)) := by
    by_cases hp : p = "ETH/USD" <;> simp [hp, hxr]
  simp only [topUpSellBound] at hs
  unfold topUpSell
  by_cases h1 : cs < cfg.min_orders_per_side
  · rw [if_pos h1]
    dsimp only
    rw [hM]
    rw [if_neg (by omega :
      ¬(0 < max 0 (min (min (cfg.max_orders_per_side : ℤ)
        (if 0 < (if p = "ETH/USD" then cfg.min_order_size
            else cfg.min_order_size / (cp * effBtcUsdCalc env)) then
          ratTrunc (readBalance st cfg.quote_asset * (95/100)
            / (if p = "ETH/USD" then cfg.min_order_size
              else cfg.min_order_size / (cp * effBtcUsdCalc env)))
          else 0) - cs) ((cfg.max_orders_per_side : ℤ) - cs))))]
  · rw [if_neg h1]
    by_cases h2 : cs < cfg.max_orders_per_side
    · rw [if_pos h2]
      dsimp only
      rw [hM]
      rw [if_neg (by omega :
        ¬(0 < min ((cfg.max_orders_per_side : ℤ) - cs)
          (max 0 ((if 0 < (if p = "ETH/USD" then cfg.min_order_size
              else cfg.min_order_size / (cp * effBtcUsdCalc env)) then
            ratTrunc (readBalance st cfg.quote_asset * (95/100)
              / (if p = "ETH/USD" then cfg.min_order_size
                else cfg.min_order_size / (cp * effBtcUsdCalc env)))
            else 0) - cs))))]
    · rw [if_neg h2]

theorem processPair_noop (env : Env) (acc : TickAcc) (p : String)
    (cfg : PairConfig) (cp : ℚ) (hp : env.prices p = some cp)
    (hxr : 0 < cp * effBtcUsdCalc env) (hbu : 0 < effBtcUsdCalc env)
    (hrepo : checkGridRepositionNeeded env acc.state p cfg = false)
    (hexp : (acc.state.pairs p).exp = some (ordersByPair env.openOrders p))
    (hb : topUpBuyBound env acc.state p cfg cp
        ≤ ((ordersByPair env.openOrders p).1 : ℤ))
    (hs : topUpSellBound env acc.state p cfg cp
        ≤ ((ordersByPair env.openOrders p).2 : ℤ)) :
    processPair env acc p cfg = acc := by
  unfold processPair
  rw [hp]
  dsimp only
  rw [hrepo]
  simp only [Bool.false_eq_true, if_false]
  rw [hexp]
  simp only [Option.getD_some]
  rw [fillPhase_observed env acc.state p cfg cp (ordersByPair env.openOrders p).1
    (ordersByPair env.openOrders p).2]
  dsimp only
  rw [topUpBuy_noop env acc.state p cfg cp (ordersByPair env.openOrders p).1
    (ordersByPair env.openOrders p).1 (ordersByPair env.openOrders p).2 hbu hb]
  dsimp only
  rw [topUpSell_noop env acc.state p cfg cp (ordersByPair env.openOrders p).2
    (ordersByPair env.openOrders p).1 (ordersByPair env.openOrders p).2 hxr hs]
  simp

/-- C3 (amended): the monitor leaves the world alone — zero requests,
zero cancels, state unchanged — provided for every enabled pair the
recorded expected counts equal the observed per-pair counts (same open
orders as when the records were written, no fills in between), and for
every enabled pair with a tracked price the reposition check does not
fire, the price and effective BTC/USD conversion are positive, and on
each side the 95 %-reserved balance cannot afford more orders than are
already observed (so the top-up blocks have nothing to add).  In
particular a second run under these conditions is idempotent.  The
claim's unconditional form is refuted by
`monitor_second_run_changes_counts`: after a fill-failure tick the
records diverge from the observations and the next run rewrites
them. -/
theorem monitor_tick_idempotent :
    ∀ (env : Env) (st : BotState),
      0 < effBtcUsdCalc env →
      (∀ p cfg, (p, cfg) ∈ enabledPairs →
        (st.pairs p).exp = some (ordersByPair env.openOrders p)) →
      (∀ p cfg, (p, cfg) ∈ enabledPairs → ∀ cp, env.prices p = some cp →
        0 < cp
        ∧ checkGridRepositionNeeded env st p cfg = false
        ∧ topUpBuyBound env st p cfg cp ≤ ((ordersByPair env.openOrders p).1 : ℤ)
        ∧ topUpSellBound env st p cfg cp
            ≤ ((ordersByPair env.openOrders p).2 : ℤ)) →
      monitorTick env st = { state := st, reqs := [], cancels := [] } := by
  intro env st hbu hobs hpr
  have hseed : seedClampPhase env st = st := by
    apply seedClamp_noop
    intro p cfg hmem
    rw [hobs p cfg hmem]
    exact seedClampVal_observed env p cfg
  have hstep : ∀ (acc : TickAcc) (p : String) (cfg : PairConfig),
      (p, cfg) ∈ enabledPairs → acc.state = st →
      processPair env acc p cfg = acc := by
    intro acc p cfg hmem hacc
    rcases hp : env.prices p with _ | cp
    · exact processPair_noprice env acc p cfg hp
    · obtain ⟨hcp, hrepo, hb, hs⟩ := hpr p cfg hmem cp hp
      refine processPair_noop env acc p cfg cp hp (mul_pos hcp hbu) hbu ?_ ?_ ?_ ?_
      · rw [hacc]
        exact hrepo
      · rw [hacc]
        exact hobs p cfg hmem
      · rw [hacc]
        exact hb
      · rw [hacc]
        exact hs
  unfold monitorTick
  rw [hseed]
  simp only [enabledPairs, List.foldl_cons, List.foldl_nil]
  rw [hstep { state := st, reqs := [], cancels := [] } "XRP/BTC" xrpBtcConfig
    (by simp [enabledPairs]) rfl]
  rw [hstep { state := st, reqs := [], cancels := [] } "ETH/USD" ethUsdConfig
    (by simp [enabledPairs]) rfl]

/-- Witness for C3: on a quiescent environment (no orders, no prices,
no funds) with records matching the (empty) observations, the monitor
is a no-op. -/
theorem monitor_tick_idempotent_witness :
    (0:ℚ) < effBtcUsdCalc quietEnv
    ∧ monitorTick quietEnv quietSt
        = { state := quietSt, reqs := [], cancels := [] } := by
  refine ⟨by norm_num [effBtcUsdCalc, quietEnv], ?_⟩
  apply monitor_tick_idempotent quietEnv quietSt
    (by norm_num [effBtcUsdCalc, quietEnv])
  · intro p cfg hmem
    rfl
  · intro p cfg hmem cp hp
    rw [show quietEnv.prices p = none from rfl] at hp
    cases hp

/-! ## The non-idempotent double-failure scenario (C3 counterexample) -/

theorem readBalance_zero (st : BotState) (a : String)
    (h1 : st.availableBalances = []) (h2 : st.balances = []) :
    readBalance st a = 0 := by
  unfold readBalance
  rw [h1, h2]
  simp [lookupD]

theorem bothEnv_processPair (acc : TickAcc) (eb es : ℕ) (st' : BotState)
    (hrepo : checkGridRepositionNeeded bothEnv acc.state "ETH/USD" ethUsdConfig
      = false)
    (hexp : (acc.state.pairs "ETH/USD").exp = some (eb, es))
    (hfill : fillPhase bothEnv acc.state "ETH/USD" ethUsdConfig 100 1 1 eb es
      = (st', []))
    (hb1 : st'.balances = []) (hb2 : st'.availableBalances = []) :
    processPair bothEnv acc "ETH/USD" ethUsdConfig
      = { state := st', reqs := acc.reqs, cancels := acc.cancels } := by
  have hc : ordersByPair bothEnv.openOrders "ETH/USD" = (1, 1) := by decide
  have hz : ∀ a, readBalance st' a = 0 := fun a => readBalance_zero st' a hb2 hb1
  have hbu : (0:ℚ) < effBtcUsdCalc bothEnv := by
    norm_num [effBtcUsdCalc, bothEnv]
  have hxr : (0:ℚ) < 100 * effBtcUsdCalc bothEnv := by
    norm_num [effBtcUsdCalc, bothEnv]
  have hbb : topUpBuyBound bothEnv st' "ETH/USD" ethUsdConfig 100 ≤ (1:ℤ) := by
    norm_num [topUpBuyBound, ethUsdConfig, hz, ratTrunc]
  have hbs : topUpSellBound bothEnv st' "ETH/USD" ethUsdConfig 100 ≤ (1:ℤ) := by
    norm_num [topUpSellBound, ethUsdConfig, hz, ratTrunc]
  unfold processPair
  rw [show bothEnv.prices "ETH/USD" = some 100 from rfl]
  dsimp only
  rw [hrepo]
  simp only [Bool.false_eq_true, if_false]
  rw [hc]
  dsimp only
  rw [hexp]
  simp only [Option.getD_some]
  rw [hfill]
  dsimp only
  rw [topUpBuy_noop bothEnv st' "ETH/USD" ethUsdConfig 100 1 eb es hbu hbb]
  dsimp only
  rw [topUpSell_noop bothEnv st' "ETH/USD" ethUsdConfig 100 1 eb es hxr hbs]
  simp

theorem both_fill_run1 :
    fillPhase bothEnv bothSt "ETH/USD" ethUsdConfig 100 1 1 2 3
      = (bothSt1, []) := by
  simp only [fillPhase]
  rw [fillSell_stuck_none bothEnv bothSt "ETH/USD" ethUsdConfig 100 1 1 2 3
    (by decide) (both_volume_none bothSt "buy")]
  dsimp only
  rw [fillBuy_stuck_none bothEnv
    (writeExp (refreshBalances bothEnv bothSt) "ETH/USD" (2, 1)) "ETH/USD"
    ethUsdConfig 100 1 1 2 3 (by decide)
    (both_volume_none (writeExp (refreshBalances bothEnv bothSt) "ETH/USD"
      (2, 1)) "sell")]
  rfl

theorem both_fill_run2 :
    fillPhase bothEnv bothSt1 "ETH/USD" ethUsdConfig 100 1 1 1 3
      = (bothSt2, []) := by
  simp only [fillPhase]
  rw [fillSell_stuck_none bothEnv bothSt1 "ETH/USD" ethUsdConfig 100 1 1 1 3
    (by decide) (both_volume_none bothSt1 "buy")]
  dsimp only
  rw [fillBuy_nofire bothEnv
    (writeExp (refreshBalances bothEnv bothSt1) "ETH/USD" (1, 1)) "ETH/USD"
    ethUsdConfig 100 1 1 1 3 (by decide)]
  rfl

theorem both_tick1 :
    monitorTick bothEnv bothSt = { state := bothSt1, reqs := [], cancels := [] } := by
  have hseed : seedClampPhase bothEnv bothSt = bothSt := by
    apply seedClamp_noop
    intro p cfg hmem
    simp only [enabledPairs, List.mem_cons, List.not_mem_nil, or_false,
      Prod.mk.injEq] at hmem
    rcases hmem with ⟨rfl, rfl⟩ | ⟨rfl, rfl⟩ <;> decide
  unfold monitorTick
  rw [hseed]
  simp only [enabledPairs, List.foldl_cons, List.foldl_nil]
  rw [processPair_noprice bothEnv { state := bothSt, reqs := [], cancels := [] }
    "XRP/BTC" xrpBtcConfig (by decide)]
  rw [bothEnv_processPair { state := bothSt, reqs := [], cancels := [] } 2 3
    bothSt1 (by decide) (by decide) both_fill_run1 rfl rfl]

theorem both_tick2 :
    monitorTick bothEnv bothSt1
      = { state := bothSt2, reqs := [], cancels := [] } := by
  have hseed : seedClampPhase bothEnv bothSt1 = bothSt1 := by
    apply seedClamp_noop
    intro p cfg hmem
    simp only [enabledPairs, List.mem_cons, List.not_mem_nil, or_false,
      Prod.mk.injEq] at hmem
    rcases hmem with ⟨rfl, rfl⟩ | ⟨rfl, rfl⟩ <;> decide
  unfold monitorTick
  rw [hseed]
  simp only [enabledPairs, List.foldl_cons, List.foldl_nil]
  rw [processPair_noprice bothEnv { state := bothSt1, reqs := [], cancels := [] }
    "XRP/BTC" xrpBtcConfig (by decide)]
  rw [bothEnv_processPair { state := bothSt1, reqs := [], cancels := [] } 1 3
    bothSt2 (by decide) (by decide) both_fill_run2 rfl rfl]

/-- Counterexample to C3 as stated: on the double-sided fill-failure
scenario the first monitor run places zero orders yet leaves the
ETH/USD record at `(1, 3)` (the buy branch's failure write restores
the stale expected sell count); a second run against the same open
orders, balances and prices — no fills in between — again places zero
orders but rewrites the record to `(1, 1)`: expected_order_counts is
NOT left unchanged. -/
theorem monitor_second_run_changes_counts :
    (monitorTick bothEnv bothSt).reqs = []
    ∧ ((monitorTick bothEnv bothSt).state.pairs "ETH/USD").exp = some (1, 3)
    ∧ (monitorTick bothEnv ((monitorTick bothEnv bothSt).state)).reqs = []
    ∧ ((monitorTick bothEnv ((monitorTick bothEnv bothSt).state)).state.pairs
        "ETH/USD").exp = some (1, 1) := by
  refine ⟨by rw [both_tick1], by rw [both_tick1]; decide, ?_, ?_⟩
  · rw [both_tick1]
    dsimp only
    rw [both_tick2]
  · rw [both_tick1]
    dsimp only
    rw [both_tick2]
    decide

end GridBot
